import Mathlib

/-!
Verification of the multi-tenant embedded-SQL database service against its
natural-language specification.  Each section shallowly embeds one component
of the source (Python AWS Lambda handlers) as executable Lean definitions;
external collaborators (object store, metadata store, message bus, file
system, the embedded SQL engine) are modelled by explicit state and by
boolean outcome flags supplied as inputs, and the handlers are translated
statement by statement from the source files named in each doc comment.
-/

namespace Migration

/-- A column payload of an `ADD_COLUMN` operation, as read from the migration
message (`src/migration/lambdas/migration-worker.py`, `ADD_COLUMN` branch):
`name`, optional `type` (default `""`), `nullable` (default `true`),
optional `default` literal (kept as its rendered SQL text). -/
structure Column where
  name : String
  type : String := ""
  nullable : Bool := true
  dflt : Option String := none
deriving DecidableEq, Repr

/-- One table of a tenant database schema: its name and its column list in
declaration order. -/
structure Table where
  name : String
  cols : List Column
deriving DecidableEq, Repr

/-- The schema-level state of a tenant database file.  The worker treats the
file only through `sqlite_master` lookups, `PRAGMA table_info`, and DDL, so
the table/column structure is the part of the file state the migration
operations can read or write. -/
abbrev Schema := List Table

/-- The payload of a `CREATE_TABLE` operation's raw `sql` field, modelled as
a single `CREATE TABLE` statement (the shape the coordinator emits): the
created table's name and columns.  SQLite raises when the table already
exists (the source script has no `IF NOT EXISTS`). -/
structure CreateSql where
  table : String
  cols : List Column
deriving DecidableEq, Repr

/-- A migration operation, one entry of the ordered `operations` list of a
migration message (`src/migration/lambdas/migration-worker.py` lines 62-115).
`renameTable` keeps `new_name` optional because the source reads it with
`op.get("new_name") or op.get("name")`. -/
inductive MigOp where
  | createTable (sql : Option CreateSql)
  | dropTable (table : String)
  | renameTable (table : String) (newName : Option String)
  | addColumn (table : String) (col : Column)
deriving DecidableEq, Repr

/-- Errors raised by the apply loop; `ValueError`/`sqlite3` exceptions are
distinguished only as far as the claims need. -/
inductive MigError where
  | unsafeIdentifier (name : String)
  | missingField (which : String)
  | tableNotFound (table : String)
  | tableAlreadyExists (table : String)
  | needsDefault
  | indexError
deriving DecidableEq, Repr

/-- `SAFE_IDENT = re.compile(r"^[A-Za-z_][A-Za-z0-9_]*$")` and `qident`
(`migration-worker.py` lines 11, 18-21): a name is safe iff it is nonempty,
starts with an ASCII letter or underscore, and continues with ASCII letters,
digits or underscores.  `qident` raises `ValueError("Unsafe identifier")`
otherwise. -/
def safeIdent (s : String) : Bool :=
  match s.data with
  | [] => false
  | c :: rest =>
      (c.isAlpha || c = '_') && rest.all (fun d => d.isAlpha || d.isDigit || d = '_')

/-- `table_exists` (`migration-worker.py` lines 24-29): parameterised
`sqlite_master` lookup, no identifier check. -/
def tableExists (s : Schema) (t : String) : Bool :=
  s.any (fun tb => tb.name = t)

/-- `column_exists` (`migration-worker.py` lines 32-34): `PRAGMA
table_info(qident(table))` — note it quotes the table (so an unsafe table
name raises there) and compares column names. -/
def columnExists (s : Schema) (t : String) (c : String) : Bool :=
  s.any (fun tb => tb.name = t && tb.cols.any (fun col => col.name = c))

/-- Effect of `DROP TABLE IF EXISTS` on the schema state. -/
def dropTableFrom (s : Schema) (t : String) : Schema :=
  s.filter (fun tb => tb.name ≠ t)

/-- Effect of `ALTER TABLE … RENAME TO …` on the schema state. -/
def renameTableIn (s : Schema) (old new : String) : Schema :=
  s.map (fun tb => if tb.name = old then { tb with name := new } else tb)

/-- Effect of `ALTER TABLE … ADD COLUMN …` on the schema state. -/
def addColumnTo (s : Schema) (t : String) (c : Column) : Schema :=
  s.map (fun tb => if tb.name = t then { tb with cols := tb.cols ++ [c] } else tb)

/-- One iteration of the operation loop of `apply_ops_to_tenant_db`
(`migration-worker.py` lines 62-115; the loop body of
`apply_ops_to_schema_sql` in `migration-handler.py` lines 76-126 is
identical).  The order of the checks follows the source exactly:

* `CREATE_TABLE`: `op["sql"]` required, else `ValueError`; the script
  (`CREATE TABLE name (…)`) raises if the table exists, else creates it.
* `DROP_TABLE`: `qident(table)` is evaluated while building the statement,
  so an unsafe name raises before anything runs; then `IF EXISTS` drop.
* `RENAME_TABLE`: missing/empty `new_name` raises; a missing source table
  raises; an existing destination is skipped as redundant (`continue`);
  only then are `qident(old)` and `qident(new)` evaluated.
* `ADD_COLUMN`: a missing table raises; `column_exists` evaluates
  `qident(table)`; an existing column is skipped; building the `ALTER`
  statement evaluates `qident(col.name)`; `nullable=false` without a
  default raises; otherwise the column is appended. -/
def applyOp (s : Schema) (op : MigOp) : Except MigError Schema :=
  match op with
  | .createTable sql =>
      match sql with
      | none => .error (.missingField "sql")
      | some c =>
          if tableExists s c.table then .error (.tableAlreadyExists c.table)
          else .ok (s ++ [⟨c.table, c.cols⟩])
  | .dropTable t =>
      if !safeIdent t then .error (.unsafeIdentifier t)
      else .ok (dropTableFrom s t)
  | .renameTable old newName =>
      match newName with
      | none => .error (.missingField "new_name")
      | some new =>
          if new = "" then .error (.missingField "new_name")
          else if !tableExists s old then .error (.tableNotFound old)
          else if tableExists s new then .ok s
          else if !safeIdent old then .error (.unsafeIdentifier old)
          else if !safeIdent new then .error (.unsafeIdentifier new)
          else .ok (renameTableIn s old new)
  | .addColumn t c =>
      if !tableExists s t then .error (.tableNotFound t)
      else if !safeIdent t then .error (.unsafeIdentifier t)
      else if columnExists s t c.name then .ok s
      else if !safeIdent c.name then .error (.unsafeIdentifier c.name)
      else if c.nullable = false && c.dflt = none then .error .needsDefault
      else .ok (addColumnTo s t c)

/-- The `for op in operations` loop: the first error aborts the loop and is
re-raised after `conn.rollback()`. -/
def applyOpsLoop (s : Schema) (ops : List MigOp) : Except MigError Schema :=
  match ops with
  | [] => .ok s
  | op :: rest =>
      match applyOp s op with
      | .ok s' => applyOpsLoop s' rest
      | .error e => .error e

/-- `apply_ops_to_tenant_db` (`migration-worker.py` lines 56-133) at the
level of the state that can reach the object store: the loop runs, then the
commit decision `if operations[-1]["op"] != "CREATE_TABLE"` indexes the
(possibly empty) list — on an empty list this raises `IndexError`, which the
surrounding `except` re-raises after rollback.  The transaction bookkeeping
(`BEGIN`/`commit`/`rollback`, and the implicit commit of `executescript` in
the `CREATE_TABLE` branch) is invisible here because the caller
`handler_one_message` uploads the file only when this function returns
without raising; on any raise the local copy is discarded.  The identical
loop and commit decision appear in `apply_ops_to_schema_sql`
(`migration-handler.py` lines 65-145), where `s3.put_object` likewise runs
only after the loop succeeds. -/
def applyMigrationOps (s : Schema) (ops : List MigOp) : Except MigError Schema :=
  match applyOpsLoop s ops with
  | .error e => .error e
  | .ok r => if ops.isEmpty then .error .indexError else .ok r

/-- `handler_one_message` (`migration-worker.py` lines 168-195) as a bucket
transformer: download the object, apply the operations, upload back on
success; on any raise the message is retried and the bucket object is left
as it was. -/
def runWorkerMigration (bucketObj : Schema) (ops : List MigOp) : Schema :=
  match applyMigrationOps bucketObj ops with
  | .ok s' => s'
  | .error _ => bucketObj

end Migration

section MigrationChecks

open Migration

example : applyMigrationOps [⟨"a", []⟩] [.renameTable "a" (some "b")] =
    .ok [⟨"b", []⟩] := rfl

example : applyMigrationOps [⟨"b", []⟩] [.renameTable "a" (some "b")] =
    .error (.tableNotFound "a") := rfl

example : applyMigrationOps [] ([] : List MigOp) = .error .indexError := rfl

example : safeIdent "Users" = true := by decide

example : safeIdent "Users; DROP TABLE X" = false := by decide

end MigrationChecks

namespace Migration

/-- Operation kind test used by the idempotence theorem: `DROP_TABLE` and
`ADD_COLUMN` operations. -/
def MigOp.isDropOrAdd : MigOp → Bool
  | .dropTable _ => true
  | .addColumn _ _ => true
  | _ => false

/-- Whether an operation is `DROP_TABLE t`. -/
def MigOp.dropsTable : MigOp → String → Bool
  | .dropTable u, t => u == t
  | _, _ => false

/-- Compatibility of a pair of operations for redelivery: a `DROP_TABLE`
must not target the table of an `ADD_COLUMN` in the same list. -/
def dropAddCompat : MigOp → MigOp → Bool
  | .dropTable u, .addColumn v _ => !(u == v)
  | _, _ => true

/-- No `DROP_TABLE` in the list targets a table some `ADD_COLUMN` in the
list adds to. -/
def noDropOfAdded (ops : List MigOp) : Bool :=
  ops.all (fun o1 => ops.all (fun o2 => dropAddCompat o1 o2))

theorem dropTableFrom_of_not_exists (s : Schema) (t : String)
    (h : tableExists s t = false) : dropTableFrom s t = s := by
  induction s with
  | nil => rfl
  | cons tb rest ih =>
      simp only [tableExists, List.any_cons, Bool.or_eq_false_iff] at h
      obtain ⟨h1, h2⟩ := h
      simp only [dropTableFrom, List.filter_cons] at *
      rw [if_pos]
      · rw [ih h2]
      · simp only [decide_eq_true_eq] at h1 ⊢
        intro hc
        exact absurd hc (by simpa using h1)

theorem tableExists_dropTableFrom_self (s : Schema) (t : String) :
    tableExists (dropTableFrom s t) t = false := by
  induction s with
  | nil => rfl
  | cons tb rest ih =>
      by_cases h : tb.name = t
      · simp only [dropTableFrom, List.filter_cons] at ih ⊢
        rw [if_neg (by simp [h])]
        exact ih
      · simp only [dropTableFrom, List.filter_cons] at ih ⊢
        rw [if_pos (by simp [h])]
        simp only [tableExists, List.any_cons, Bool.or_eq_false_iff]
        exact ⟨by simp [h], ih⟩

theorem tableExists_dropTableFrom_mono (s : Schema) (u t : String)
    (h : tableExists (dropTableFrom s u) t = true) : tableExists s t = true := by
  simp only [tableExists, dropTableFrom, List.any_eq_true, decide_eq_true_eq] at h ⊢
  obtain ⟨tb, hmem, hname⟩ := h
  exact ⟨tb, List.mem_of_mem_filter hmem, hname⟩

theorem tableExists_dropTableFrom_ne (s : Schema) (u t : String) (hne : t ≠ u)
    (h : tableExists s t = true) : tableExists (dropTableFrom s u) t = true := by
  simp only [tableExists, dropTableFrom, List.any_eq_true, decide_eq_true_eq] at h ⊢
  obtain ⟨tb, hmem, hname⟩ := h
  refine ⟨tb, List.mem_filter.mpr ⟨hmem, ?_⟩, hname⟩
  simp [hname, hne]

theorem tableExists_addColumnTo (s : Schema) (u : String) (c : Column)
    (t : String) : tableExists (addColumnTo s u c) t = tableExists s t := by
  induction s with
  | nil => rfl
  | cons tb rest ih =>
      by_cases h : tb.name = u
      · simp only [addColumnTo, tableExists, h, List.map_cons, List.any_cons,
          if_pos rfl, if_true] at ih ⊢
        rw [ih]
      · simp only [addColumnTo, tableExists, List.map_cons, List.any_cons,
          if_neg h] at ih ⊢
        rw [ih]

theorem columnExists_dropTableFrom (s : Schema) (u t c : String) (hne : t ≠ u)
    (h : columnExists s t c = true) : columnExists (dropTableFrom s u) t c = true := by
  simp only [columnExists, dropTableFrom, List.any_eq_true, Bool.and_eq_true,
    decide_eq_true_eq] at h ⊢
  obtain ⟨tb, hmem, hname, hcol⟩ := h
  refine ⟨tb, List.mem_filter.mpr ⟨hmem, ?_⟩, hname, hcol⟩
  simp [hname, hne]

theorem columnExists_addColumnTo_mono (s : Schema) (u : String) (c' : Column)
    (t c : String) (h : columnExists s t c = true) :
    columnExists (addColumnTo s u c') t c = true := by
  simp only [columnExists, addColumnTo, List.any_eq_true, Bool.and_eq_true,
    decide_eq_true_eq, List.mem_map] at h ⊢
  obtain ⟨tb, hmem, hname, col, hcmem, hcname⟩ := h
  by_cases hu : tb.name = u
  · refine ⟨{ tb with cols := tb.cols ++ [c'] }, ⟨tb, hmem, ?_⟩, hname,
      col, List.mem_append.mpr (Or.inl hcmem), hcname⟩
    simp [hu]
  · refine ⟨tb, ⟨tb, hmem, ?_⟩, hname, col, hcmem, hcname⟩
    simp [hu]

theorem columnExists_addColumnTo_self (s : Schema) (t : String) (c : Column)
    (h : tableExists s t = true) : columnExists (addColumnTo s t c) t c.name = true := by
  simp only [tableExists, List.any_eq_true, decide_eq_true_eq] at h
  obtain ⟨tb, hmem, hname⟩ := h
  simp only [columnExists, addColumnTo, List.any_eq_true, Bool.and_eq_true,
    decide_eq_true_eq, List.mem_map]
  refine ⟨{ tb with cols := tb.cols ++ [c] }, ⟨tb, hmem, ?_⟩, hname,
    c, List.mem_append.mpr (Or.inr (List.mem_singleton.mpr rfl)), rfl⟩
  simp [hname]

end Migration

namespace Migration

theorem applyOp_drop_ok (s : Schema) (u : String) (s' : Schema)
    (h : applyOp s (.dropTable u) = .ok s') :
    safeIdent u = true ∧ s' = dropTableFrom s u := by
  simp only [applyOp] at h
  by_cases hs : safeIdent u
  · simp [hs] at h
    exact ⟨hs, h.symm⟩
  · simp [hs] at h

theorem applyOp_add_ok (s : Schema) (t : String) (c : Column) (s' : Schema)
    (h : applyOp s (.addColumn t c) = .ok s') :
    tableExists s t = true ∧ safeIdent t = true ∧
      tableExists s' t = true ∧ columnExists s' t c.name = true := by
  simp only [applyOp] at h
  by_cases h1 : tableExists s t
  · by_cases h2 : safeIdent t
    · by_cases h3 : columnExists s t c.name
      · simp [h1, h2, h3] at h
        exact ⟨h1, h2, h ▸ h1, h ▸ h3⟩
      · by_cases h4 : safeIdent c.name
        · by_cases h5 : c.nullable = false ∧ c.dflt = none
          · simp [h1, h2, h3, h4, h5] at h
          · simp [h1, h2, h3, h4, h5] at h
            refine ⟨h1, h2, ?_, ?_⟩
            · rw [← h, tableExists_addColumnTo]
              exact h1
            · rw [← h]
              exact columnExists_addColumnTo_self s t c h1
        · simp [h1, h2, h3, h4] at h
    · simp [h1, h2] at h
  · simp [h1] at h

theorem applyOp_identity_drop (s : Schema) (u : String)
    (hs : safeIdent u = true) (hne : tableExists s u = false) :
    applyOp s (.dropTable u) = .ok s := by
  simp [applyOp, hs, dropTableFrom_of_not_exists s u hne]

theorem applyOp_identity_add (s : Schema) (t : String) (c : Column)
    (ht : tableExists s t = true) (hst : safeIdent t = true)
    (hc : columnExists s t c.name = true) :
    applyOp s (.addColumn t c) = .ok s := by
  simp [applyOp, ht, hst, hc]

theorem applyOp_tables_mono (op : MigOp) (s s' : Schema) (t : String)
    (hk : op.isDropOrAdd = true) (h : applyOp s op = .ok s')
    (ht : tableExists s' t = true) : tableExists s t = true := by
  cases op with
  | createTable sql => simp [MigOp.isDropOrAdd] at hk
  | renameTable a b => simp [MigOp.isDropOrAdd] at hk
  | dropTable u =>
      obtain ⟨_, rfl⟩ := applyOp_drop_ok s u s' h
      exact tableExists_dropTableFrom_mono s u t ht
  | addColumn u c =>
      simp only [applyOp] at h
      by_cases h1 : tableExists s u
      · by_cases h2 : safeIdent u
        · by_cases h3 : columnExists s u c.name
          · simp [h1, h2, h3] at h
            exact h ▸ ht
          · by_cases h4 : safeIdent c.name
            · by_cases h5 : c.nullable = false ∧ c.dflt = none
              · simp [h1, h2, h3, h4, h5] at h
              · simp [h1, h2, h3, h4, h5] at h
                rw [← h, tableExists_addColumnTo] at ht
                exact ht
            · simp [h1, h2, h3, h4] at h
        · simp [h1, h2] at h
      · simp [h1] at h

theorem applyOp_preserve (op : MigOp) (s s' : Schema) (t c : String)
    (hk : op.isDropOrAdd = true) (hnd : op.dropsTable t = false)
    (h : applyOp s op = .ok s')
    (ht : tableExists s t = true) (hc : columnExists s t c = true) :
    tableExists s' t = true ∧ columnExists s' t c = true := by
  cases op with
  | createTable sql => simp [MigOp.isDropOrAdd] at hk
  | renameTable a b => simp [MigOp.isDropOrAdd] at hk
  | dropTable u =>
      obtain ⟨_, rfl⟩ := applyOp_drop_ok s u s' h
      have hne : t ≠ u := by
        simp only [MigOp.dropsTable, beq_eq_false_iff_ne, ne_eq] at hnd
        exact fun hh => hnd hh.symm
      exact ⟨tableExists_dropTableFrom_ne s u t hne ht,
        columnExists_dropTableFrom s u t c hne hc⟩
  | addColumn u c' =>
      simp only [applyOp] at h
      by_cases h1 : tableExists s u
      · by_cases h2 : safeIdent u
        · by_cases h3 : columnExists s u c'.name
          · simp [h1, h2, h3] at h
            exact ⟨h ▸ ht, h ▸ hc⟩
          · by_cases h4 : safeIdent c'.name
            · by_cases h5 : c'.nullable = false ∧ c'.dflt = none
              · simp [h1, h2, h3, h4, h5] at h
              · simp [h1, h2, h3, h4, h5] at h
                subst h
                exact ⟨by rw [tableExists_addColumnTo]; exact ht,
                  columnExists_addColumnTo_mono s u c' t c hc⟩
            · simp [h1, h2, h3, h4] at h
        · simp [h1, h2] at h
      · simp [h1] at h

theorem applyOpsLoop_tables_mono : ∀ (ops : List MigOp) (s s' : Schema) (t : String),
    (∀ op ∈ ops, op.isDropOrAdd = true) → applyOpsLoop s ops = .ok s' →
    tableExists s' t = true → tableExists s t = true := by
  intro ops
  induction ops with
  | nil =>
      intro s s' t _ h ht
      simp only [applyOpsLoop] at h
      cases h
      exact ht
  | cons op rest ih =>
      intro s s' t hk h ht
      simp only [applyOpsLoop] at h
      cases hop : applyOp s op with
      | error e => rw [hop] at h; cases h
      | ok smid =>
          rw [hop] at h
          have hmid := ih smid s' t (fun o ho => hk o (List.mem_cons_of_mem _ ho)) h ht
          exact applyOp_tables_mono op s smid t (hk op (List.mem_cons_self _ _)) hop hmid

theorem applyOpsLoop_preserve : ∀ (ops : List MigOp) (s s' : Schema) (t c : String),
    (∀ op ∈ ops, op.isDropOrAdd = true) → (∀ op ∈ ops, op.dropsTable t = false) →
    applyOpsLoop s ops = .ok s' →
    tableExists s t = true → columnExists s t c = true →
    tableExists s' t = true ∧ columnExists s' t c = true := by
  intro ops
  induction ops with
  | nil =>
      intro s s' t c _ _ h ht hc
      simp only [applyOpsLoop] at h
      cases h
      exact ⟨ht, hc⟩
  | cons op rest ih =>
      intro s s' t c hk hnd h ht hc
      simp only [applyOpsLoop] at h
      cases hop : applyOp s op with
      | error e => rw [hop] at h; cases h
      | ok smid =>
          rw [hop] at h
          obtain ⟨ht', hc'⟩ := applyOp_preserve op s smid t c (hk op (List.mem_cons_self _ _))
            (hnd op (List.mem_cons_self _ _)) hop ht hc
          exact ih smid s' t c (fun o ho => hk o (List.mem_cons_of_mem _ ho))
            (fun o ho => hnd o (List.mem_cons_of_mem _ ho)) h ht' hc'

end Migration

namespace Migration

theorem noDropOfAdded_of_cons (op : MigOp) (rest : List MigOp)
    (h : noDropOfAdded (op :: rest) = true) : noDropOfAdded rest = true := by
  simp only [noDropOfAdded, List.all_eq_true] at h ⊢
  intro o1 h1 o2 h2
  exact h o1 (List.mem_cons_of_mem _ h1) o2 (List.mem_cons_of_mem _ h2)

theorem noDropOfAdded_protect (ops : List MigOp) (t : String) (c : Column)
    (hadd : MigOp.addColumn t c ∈ ops) (h : noDropOfAdded ops = true) :
    ∀ o ∈ ops, o.dropsTable t = false := by
  simp only [noDropOfAdded, List.all_eq_true] at h
  intro o ho
  cases o with
  | dropTable u =>
      have hcompat := h (.dropTable u) ho (.addColumn t c) hadd
      simp only [dropAddCompat, Bool.not_eq_true', beq_eq_false_iff_ne, ne_eq] at hcompat
      simp only [MigOp.dropsTable, beq_eq_false_iff_ne, ne_eq]
      exact hcompat
  | createTable sql => rfl
  | renameTable a b => rfl
  | addColumn a b => rfl

theorem applyOpsLoop_noop_at_final : ∀ (ops : List MigOp) (s0 s1 : Schema),
    (∀ op ∈ ops, op.isDropOrAdd = true) → noDropOfAdded ops = true →
    applyOpsLoop s0 ops = .ok s1 → ∀ op ∈ ops, applyOp s1 op = .ok s1 := by
  intro ops
  induction ops with
  | nil => intro s0 s1 _ _ _ op hmem; cases hmem
  | cons op rest ih =>
      intro s0 s1 hk hd hloop op' hmem
      simp only [applyOpsLoop] at hloop
      cases hop : applyOp s0 op with
      | error e => rw [hop] at hloop; cases hloop
      | ok smid =>
          rw [hop] at hloop
          have hkrest : ∀ o ∈ rest, o.isDropOrAdd = true :=
            fun o ho => hk o (List.mem_cons_of_mem _ ho)
          rcases List.mem_cons.mp hmem with heq | hmem'
          · subst heq
            cases op' with
            | createTable sql => exact absurd (hk _ (List.mem_cons_self _ _)) (by simp [MigOp.isDropOrAdd])
            | renameTable a b => exact absurd (hk _ (List.mem_cons_self _ _)) (by simp [MigOp.isDropOrAdd])
            | dropTable u =>
                obtain ⟨hs, rfl⟩ := applyOp_drop_ok s0 u smid hop
                have habsent : tableExists (dropTableFrom s0 u) u = false :=
                  tableExists_dropTableFrom_self s0 u
                cases hx : tableExists s1 u with
                | true =>
                    have := applyOpsLoop_tables_mono rest (dropTableFrom s0 u) s1 u
                      hkrest hloop hx
                    rw [habsent] at this
                    cases this
                | false => exact applyOp_identity_drop s1 u hs hx
            | addColumn t c =>
                obtain ⟨ht0, hst, htmid, hcmid⟩ := applyOp_add_ok s0 t c smid hop
                have hnd : ∀ o ∈ rest, o.dropsTable t = false := by
                  intro o ho
                  exact noDropOfAdded_protect (MigOp.addColumn t c :: rest) t c
                    (List.mem_cons_self _ _) hd o (List.mem_cons_of_mem _ ho)
                obtain ⟨ht1, hc1⟩ := applyOpsLoop_preserve rest smid s1 t c.name
                  hkrest hnd hloop htmid hcmid
                exact applyOp_identity_add s1 t c ht1 hst hc1
          · exact ih smid s1 hkrest (noDropOfAdded_of_cons op rest hd) hloop op' hmem'

theorem applyOpsLoop_of_noop : ∀ (ops : List MigOp) (s : Schema),
    (∀ op ∈ ops, applyOp s op = .ok s) → applyOpsLoop s ops = .ok s := by
  intro ops
  induction ops with
  | nil => intro s _; rfl
  | cons op rest ih =>
      intro s h
      simp only [applyOpsLoop]
      rw [h op (List.mem_cons_self _ _)]
      exact ih s (fun o ho => h o (List.mem_cons_of_mem _ ho))

end Migration

namespace Migration

theorem applyMigrationOps_ok_iff (s : Schema) (ops : List MigOp) (s1 : Schema) :
    applyMigrationOps s ops = .ok s1 ↔ applyOpsLoop s ops = .ok s1 ∧ ops ≠ [] := by
  unfold applyMigrationOps
  cases hl : applyOpsLoop s ops with
  | error e => simp
  | ok r => cases ops <;> simp

end Migration

namespace Coordinator

/-- Externally visible side effects of the migration coordinator
(`src/migration/lambdas/migration-handler.py`, `lambda_handler`, TENANT
scope, lines 196-319): object-store copies and puts, FIFO-queue sends, and
the metadata writes at the end. -/
inductive CoEffect where
  | copyObject (bucket key : String)
  | putObject (bucket key : String)
  | sqsSend (groupId : String)
  | dynamoPutSchema (schemaId : String)
  | dynamoUpdateParentRef (tenantId : String)
deriving DecidableEq, Repr

/-- Hard-coded bucket names of `migration-handler.py` lines 239-241. -/
def primaryBucket : String := "octodb-tenants-bucket"

def standbyReplicaBucket : String := "octodb-tenants-standby-bucket"

/-- Whether an effect writes to the object store. -/
def CoEffect.isStoreWrite : CoEffect → Bool
  | .copyObject _ _ => true
  | .putObject _ _ => true
  | _ => false

/-- Whether an effect enqueues a migration message on the bus. -/
def CoEffect.isEnqueue : CoEffect → Bool
  | .sqsSend _ => true
  | _ => false

/-- `apply_ops_to_schema_sql` (`migration-handler.py` lines 65-145): load
the artifact, replay it in memory, run the shared operation loop and commit
decision (`Migration.applyMigrationOps`), and `put_object` the dumped schema
back only when no exception was raised. -/
def applyOpsToSchemaSql (bucket key : String) (content : Migration.Schema)
    (ops : List Migration.MigOp) :
    List CoEffect × Except Migration.MigError Migration.Schema :=
  match Migration.applyMigrationOps content ops with
  | .ok s' => ([.putObject bucket key], .ok s')
  | .error e => ([], .error e)

/-- The TENANT-scope branch of the coordinator `lambda_handler`
(`migration-handler.py` lines 201-319), starting after tenant lookup and
API-key validation (both assumed to have succeeded; the claims settled
against this model do not involve them).  In source order: when
`parent_schema_ref != "NULL"` the parent schema artifact is copied to
`schemas/<tenant_id>.sql`; then `apply_ops_to_schema_sql` rewrites the
artifact (an exception propagates out of the handler, ending the request
with nothing further executed); on success the artifact is copied to the
standby bucket, three migration jobs are enqueued (primary, read-only
replica, standby groups), and the schema record and `parent_schema_ref`
metadata writes run.  `parentContent` is the artifact at the parent key,
`destContent` the artifact already at the tenant key. -/
def lambdaHandlerTenantScope (tenantId parentSchemaRef : String)
    (parentContent destContent : Migration.Schema) (ops : List Migration.MigOp) :
    List CoEffect × Except Migration.MigError Unit :=
  let destKey := "schemas/" ++ tenantId ++ ".sql"
  let copyFx : List CoEffect :=
    if parentSchemaRef ≠ "NULL" then [.copyObject primaryBucket destKey] else []
  let content := if parentSchemaRef ≠ "NULL" then parentContent else destContent
  match Migration.applyMigrationOps content ops with
  | .error e => (copyFx, .error e)
  | .ok _ =>
      (copyFx ++
        [.putObject primaryBucket destKey,
         .copyObject standbyReplicaBucket destKey,
         .sqsSend tenantId,
         .sqsSend (tenantId ++ "-read-only-replica"),
         .sqsSend (tenantId ++ "-standby-replica"),
         .dynamoPutSchema tenantId,
         .dynamoUpdateParentRef tenantId], .ok ())

end Coordinator

/-- C1 counterexample: the migration operation list
`[RENAME_TABLE a -> b]` applied to a file whose schema holds table `a`
succeeds once (producing table `b`), but re-applying it to the resulting
file raises `RENAME_TABLE: table does not exist` — the source-missing check
runs before the destination-exists redundancy check — so the second
application does not complete without error, refuting the claim. -/
theorem c1_counterexample :
    Migration.runWorkerMigration [⟨"a", []⟩]
        [.renameTable "a" (some "b")] = [⟨"b", []⟩] ∧
    Migration.applyMigrationOps [⟨"b", []⟩]
        [.renameTable "a" (some "b")] =
      .error (.tableNotFound "a") := ⟨rfl, rfl⟩

/-- C1 (amended): for a migration operation list consisting only of
`DROP_TABLE` and `ADD_COLUMN` operations, in which no `DROP_TABLE` targets a
table some `ADD_COLUMN` adds to, a first successful application makes the
second application of the same list a no-op: it completes without error and
leaves the file state (and hence the bucket object) unchanged.
`RENAME_TABLE` and `CREATE_TABLE` are excluded: a redelivered
`RENAME_TABLE` raises because its source is gone, and a redelivered
`CREATE_TABLE` raises because the table exists. -/
theorem c1_amended (ops : List Migration.MigOp) (s0 s1 : Migration.Schema)
    (hk : ∀ op ∈ ops, op.isDropOrAdd = true)
    (hd : Migration.noDropOfAdded ops = true)
    (h1 : Migration.applyMigrationOps s0 ops = .ok s1) :
    Migration.applyMigrationOps s1 ops = .ok s1 ∧
      Migration.runWorkerMigration (Migration.runWorkerMigration s0 ops) ops =
        Migration.runWorkerMigration s0 ops := by
  obtain ⟨hl, hne⟩ := (Migration.applyMigrationOps_ok_iff s0 ops s1).mp h1
  have hnoop := Migration.applyOpsLoop_noop_at_final ops s0 s1 hk hd hl
  have hloop1 := Migration.applyOpsLoop_of_noop ops s1 hnoop
  have hagain : Migration.applyMigrationOps s1 ops = .ok s1 :=
    (Migration.applyMigrationOps_ok_iff s1 ops s1).mpr ⟨hloop1, hne⟩
  refine ⟨hagain, ?_⟩
  unfold Migration.runWorkerMigration
  rw [h1]
  rw [hagain]

/-- C1 amended witness: concrete run of the amended theorem on
`[DROP_TABLE t, ADD_COLUMN u c]` over a file containing empty tables `t`
and `u`. -/
theorem c1_amended_witness :
    Migration.applyMigrationOps [⟨"u", [⟨"c", "TEXT", true, none⟩]⟩]
        [.dropTable "t", .addColumn "u" ⟨"c", "TEXT", true, none⟩] =
      .ok [⟨"u", [⟨"c", "TEXT", true, none⟩]⟩] ∧
    Migration.runWorkerMigration
        (Migration.runWorkerMigration [⟨"t", []⟩, ⟨"u", []⟩]
          [.dropTable "t", .addColumn "u" ⟨"c", "TEXT", true, none⟩])
        [.dropTable "t", .addColumn "u" ⟨"c", "TEXT", true, none⟩] =
      Migration.runWorkerMigration [⟨"t", []⟩, ⟨"u", []⟩]
        [.dropTable "t", .addColumn "u" ⟨"c", "TEXT", true, none⟩] :=
  c1_amended [.dropTable "t", .addColumn "u" ⟨"c", "TEXT", true, none⟩]
    [⟨"t", []⟩, ⟨"u", []⟩] [⟨"u", [⟨"c", "TEXT", true, none⟩]⟩]
    (by decide) (by decide) rfl

/-- C9: on an empty operations list, both the worker's per-tenant apply
(`apply_ops_to_tenant_db`) and the coordinator's schema-artifact rewrite
(`apply_ops_to_schema_sql`) raise `IndexError` from the commit decision
`operations[-1]["op"]`, instead of committing a no-op migration: the worker
leaves the bucket object untouched (no upload happens) and the coordinator
writes no artifact. -/
theorem c9_empty_operations_index_error (s artifact : Migration.Schema) :
    Migration.applyMigrationOps s [] = .error .indexError ∧
    Migration.runWorkerMigration s [] = s ∧
    Coordinator.applyOpsToSchemaSql Coordinator.primaryBucket "schemas/x.sql"
        artifact [] = ([], .error .indexError) :=
  ⟨rfl, rfl, rfl⟩

/-- C5 counterexample: a TENANT-scope migration request whose tenant has a
non-NULL `parent_schema_ref` and whose single operation
`DROP_TABLE "bad name"` fails the identifier regex is indeed rejected with
`UnsafeIdentifier`, but only after `s3.copy_object` has already cloned the
parent schema artifact to `schemas/<tenant_id>.sql` — an object-store file
is modified before the rejection, refuting the claim. -/
theorem c5_counterexample :
    Coordinator.lambdaHandlerTenantScope "t1" "p" [] [] [.dropTable "bad name"] =
      ([.copyObject Coordinator.primaryBucket "schemas/t1.sql"],
        .error (.unsafeIdentifier "bad name")) ∧
    Coordinator.CoEffect.isStoreWrite
      (Coordinator.CoEffect.copyObject Coordinator.primaryBucket "schemas/t1.sql") =
      true := ⟨rfl, rfl⟩

/-- C5 (amended): whenever the in-memory replay of the operation list
raises (in particular with `UnsafeIdentifier` when an operation's
`table`/`new_name`/`column.name` identifier check is reached), the
TENANT-scope coordinator fails with that error, enqueues no migration
message, and does not rewrite the schema artifact; the only object-store
effect that may already have happened is the pre-validation clone of the
parent schema artifact to the tenant schema key (present exactly when
`parent_schema_ref != "NULL"`). -/
theorem c5_amended (tenantId parentSchemaRef : String)
    (parentContent destContent : Migration.Schema) (ops : List Migration.MigOp)
    (e : Migration.MigError)
    (happ : Migration.applyMigrationOps
      (if parentSchemaRef ≠ "NULL" then parentContent else destContent) ops =
      .error e) :
    (Coordinator.lambdaHandlerTenantScope tenantId parentSchemaRef
        parentContent destContent ops).2 = .error e ∧
    ((Coordinator.lambdaHandlerTenantScope tenantId parentSchemaRef
        parentContent destContent ops).1.any Coordinator.CoEffect.isEnqueue) = false ∧
    ((Coordinator.lambdaHandlerTenantScope tenantId parentSchemaRef
        parentContent destContent ops).1.any
      (fun fx => match fx with | .putObject _ _ => true | _ => false)) = false ∧
    (Coordinator.lambdaHandlerTenantScope tenantId parentSchemaRef
        parentContent destContent ops).1 =
      (if parentSchemaRef ≠ "NULL" then
        [.copyObject Coordinator.primaryBucket ("schemas/" ++ tenantId ++ ".sql")]
      else []) := by
  by_cases hp : parentSchemaRef = "NULL"
  · simp only [hp, ne_eq, not_true_eq_false, if_false] at happ
    simp [Coordinator.lambdaHandlerTenantScope, hp, happ]
  · have hp2 : (parentSchemaRef ≠ "NULL") = True := by simp [hp]
    simp only [ne_eq, hp2, if_true] at happ
    simp [Coordinator.lambdaHandlerTenantScope, hp, happ,
      Coordinator.CoEffect.isEnqueue]

/-- C5 amended witness: concrete run of the amended theorem with
`parent_schema_ref = "NULL"` and the unsafe operation
`DROP_TABLE "bad name"`. -/
theorem c5_amended_witness :
    (Coordinator.lambdaHandlerTenantScope "t2" "NULL" [] []
        [.dropTable "bad name"]).2 =
      .error (.unsafeIdentifier "bad name") ∧
    ((Coordinator.lambdaHandlerTenantScope "t2" "NULL" [] []
        [.dropTable "bad name"]).1.any Coordinator.CoEffect.isEnqueue) = false ∧
    ((Coordinator.lambdaHandlerTenantScope "t2" "NULL" [] []
        [.dropTable "bad name"]).1.any
      (fun fx => match fx with | .putObject _ _ => true | _ => false)) = false ∧
    (Coordinator.lambdaHandlerTenantScope "t2" "NULL" [] []
        [.dropTable "bad name"]).1 =
      (if "NULL" ≠ "NULL" then
        [.copyObject Coordinator.primaryBucket ("schemas/" ++ "t2" ++ ".sql")]
      else []) :=
  c5_amended "t2" "NULL" [] [] [.dropTable "bad name"]
    (.unsafeIdentifier "bad name") rfl

namespace Demotion

/-- A raw timestamp attribute as stored in the metadata table
(`src/caching/lambdas/cold_storage_manager.py` lines 60-64): either a
DynamoDB number (`Decimal`, parsed with `utcfromtimestamp`) or any other
value, parsed with `fromisoformat(str(...))`. -/
inductive TsRaw where
  | num (v : Int)
  | iso (s : String)
deriving DecidableEq, Repr

/-- Python truthiness of a raw timestamp value (`x or y` picks `y` when `x`
is falsy: `Decimal(0)` and the empty string are falsy). -/
def TsRaw.truthy : TsRaw → Bool
  | .num v => v ≠ 0
  | .iso s => s ≠ ""

/-- Python truthiness of an optional string attribute. -/
def strTruthy : Option String → Bool
  | none => false
  | some s => s ≠ ""

/-- The fields of a tenant metadata item the demotion job reads. -/
structure TenantRec where
  storageTier : Option String
  lastAccessedAt : Option TsRaw
  createdAt : Option TsRaw
  currentDbPath : Option String
deriving DecidableEq, Repr

/-- The fields of a replica metadata item the demotion job reads. -/
structure ReplicaRec where
  dbPath : Option String
  primaryBucket : Option String
deriving DecidableEq, Repr

/-- The externally visible storage state for one tenant: the hot-cache
(EFS) file and the object at `primary_bucket/db_key`, each an optional
opaque byte content. -/
structure FsState where
  efsFile : Option Nat
  primaryObj : Option Nat
deriving DecidableEq, Repr

/-- Outcomes of the external calls the demotion of one tenant makes. -/
structure DemoteEnv where
  replicaFetchOk : Bool
  uploadOk : Bool
  removeOk : Bool
  updateOk : Bool
deriving DecidableEq, Repr

/-- The per-tenant result of one demotion pass: the stored `storage_tier`
attribute afterwards, the storage state, and whether the tenant was
appended to `demoted_tenants`. -/
structure DemoteResult where
  storageTier : Option String
  fs : FsState
  demoted : Bool
deriving DecidableEq, Repr

/-- Python `str.upper()` on the ASCII tier strings this system stores,
modelled character-wise so it evaluates in the kernel. -/
def upperAscii (s : String) : String :=
  String.mk (s.data.map Char.toUpper)

/-- `(tenant.get('storage_tier') or 'COLD').upper()`
(`cold_storage_manager.py` line 50). -/
def effectiveTier (t : TenantRec) : String :=
  if strTruthy t.storageTier then upperAscii (t.storageTier.getD "") else "COLD"

/-- `tenant.get('last_accessed_at') or tenant.get('created_at')`
(`cold_storage_manager.py` line 55). -/
def effectiveTs (t : TenantRec) : Option TsRaw :=
  match t.lastAccessedAt with
  | some v => if v.truthy then some v else t.createdAt
  | none => t.createdAt

/-- Resolution of `db_key` (`cold_storage_manager.py` lines 76-88):
`current_db_path`, falling back to the replica item's `db_path` when the
former is falsy and a replica item was fetched. -/
def resolveDbKey (t : TenantRec) (replItem : Option ReplicaRec) : Option String :=
  match replItem with
  | some r => if strTruthy t.currentDbPath then t.currentDbPath else r.dbPath
  | none => t.currentDbPath

/-- Resolution of `primary_bucket` (`cold_storage_manager.py` lines 77-89):
taken from the replica item, `None` when none was fetched. -/
def resolvePrimaryBucket (replItem : Option ReplicaRec) : Option String :=
  match replItem with
  | some r => r.primaryBucket
  | none => none

/-- One iteration of the tenant loop of the cold storage manager
`lambda_handler` (`cold_storage_manager.py` lines 47-142), for one scanned
tenant.  `parse` models `utcfromtimestamp`/`fromisoformat` (`none` =
exception), `idleCutoff` is `now - timedelta(hours=COLD_THRESHOLD_HOURS)`,
and `env` carries the outcomes of the replica fetch, the S3 upload, the EFS
delete, and the metadata update.  The source order: non-HOT tenants are
skipped; a falsy/missing effective timestamp skips; a parse failure skips;
`last_ts > idle_cutoff` skips; unresolved `db_key`/`primary_bucket` skips;
if the EFS file exists it is uploaded (failure skips, leaving everything
unchanged) and then deleted best-effort (failure only warns); finally the
metadata update sets `storage_tier = COLD` (failure skips the demoted-list
append and leaves the tier attribute unchanged, after the file effects
already happened). -/
def demoteOne (parse : TsRaw → Option Int) (idleCutoff : Int) (env : DemoteEnv)
    (t : TenantRec) (repl : Option ReplicaRec) (fs : FsState) : DemoteResult :=
  if effectiveTier t ≠ "HOT" then ⟨t.storageTier, fs, false⟩
  else
    match effectiveTs t with
    | none => ⟨t.storageTier, fs, false⟩
    | some v =>
      if !v.truthy then ⟨t.storageTier, fs, false⟩
      else
        match parse v with
        | none => ⟨t.storageTier, fs, false⟩
        | some ts =>
          if ts > idleCutoff then ⟨t.storageTier, fs, false⟩
          else
            let replItem := if env.replicaFetchOk then repl else none
            if !strTruthy (resolveDbKey t replItem) then ⟨t.storageTier, fs, false⟩
            else if !strTruthy (resolvePrimaryBucket replItem) then
              ⟨t.storageTier, fs, false⟩
            else
              match fs.efsFile with
              | some b =>
                  if !env.uploadOk then ⟨t.storageTier, fs, false⟩
                  else
                    let fs1 : FsState :=
                      { efsFile := if env.removeOk then none else some b,
                        primaryObj := some b }
                    if !env.updateOk then ⟨t.storageTier, fs1, false⟩
                    else ⟨some "COLD", fs1, true⟩
              | none =>
                  if !env.updateOk then ⟨t.storageTier, fs, false⟩
                  else ⟨some "COLD", fs, true⟩

end Demotion

/-- C2 counterexample: an idle HOT tenant whose hot-cache file holds bytes
`7` and whose EFS delete fails (`os.remove` raises) is still marked COLD —
the delete failure is only a warning — leaving a final state that is
neither (a) COLD with the hot-cache file absent nor (b) still HOT with the
file unchanged: the tenant is COLD while the hot-cache file is still
present. -/
theorem c2_counterexample :
    Demotion.demoteOne (fun _ => some 0) 0 ⟨true, true, false, true⟩
        ⟨some "HOT", some (.num 1), none, some "databases/db.db"⟩
        (some ⟨some "databases/db.db", some "bkt"⟩) ⟨some 7, some 5⟩ =
      ⟨some "COLD", ⟨some 7, some 7⟩, true⟩ ∧
    ¬ ((Demotion.demoteOne (fun _ => some 0) 0 ⟨true, true, false, true⟩
        ⟨some "HOT", some (.num 1), none, some "databases/db.db"⟩
        (some ⟨some "databases/db.db", some "bkt"⟩) ⟨some 7, some 5⟩).storageTier =
          some "COLD" ∧
      (Demotion.demoteOne (fun _ => some 0) 0 ⟨true, true, false, true⟩
        ⟨some "HOT", some (.num 1), none, some "databases/db.db"⟩
        (some ⟨some "databases/db.db", some "bkt"⟩) ⟨some 7, some 5⟩).fs.efsFile =
          none) ∧
    ¬ ((Demotion.demoteOne (fun _ => some 0) 0 ⟨true, true, false, true⟩
        ⟨some "HOT", some (.num 1), none, some "databases/db.db"⟩
        (some ⟨some "databases/db.db", some "bkt"⟩) ⟨some 7, some 5⟩).storageTier =
          some "HOT" ∧
      (Demotion.demoteOne (fun _ => some 0) 0 ⟨true, true, false, true⟩
        ⟨some "HOT", some (.num 1), none, some "databases/db.db"⟩
        (some ⟨some "databases/db.db", some "bkt"⟩) ⟨some 7, some 5⟩).fs =
          ⟨some 7, some 5⟩) := by
  refine ⟨rfl, ?_, ?_⟩ <;> decide

/-- C2 (amended): one demotion pass over an idle HOT tenant with resolvable
`db_key`/`primary_bucket` and an existing hot-cache file of bytes `b` ends
in exactly one of: (a) the tenant is COLD and the primary bucket holds `b`,
with the hot-cache file removed best-effort (it survives exactly when the
delete failed); (b) the tenant is unchanged and so is all storage, because
the upload failed; (c) the tenant metadata is unchanged (still HOT) but the
bytes were uploaded (and the file possibly deleted), because the metadata
update failed after the upload.  An upload failure always yields (b). -/
theorem c2_amended (parse : Demotion.TsRaw → Option Int) (idleCutoff ts : Int)
    (env : Demotion.DemoteEnv) (t : Demotion.TenantRec)
    (repl : Option Demotion.ReplicaRec) (fs : Demotion.FsState)
    (v : Demotion.TsRaw) (b : Nat)
    (h1 : Demotion.effectiveTier t = "HOT")
    (hv : Demotion.effectiveTs t = some v)
    (hvt : v.truthy = true)
    (hp : parse v = some ts)
    (hidle : ts ≤ idleCutoff)
    (hdb : Demotion.strTruthy
      (Demotion.resolveDbKey t (if env.replicaFetchOk then repl else none)) = true)
    (hpb : Demotion.strTruthy
      (Demotion.resolvePrimaryBucket (if env.replicaFetchOk then repl else none)) = true)
    (hfs : fs.efsFile = some b) :
    (((Demotion.demoteOne parse idleCutoff env t repl fs).storageTier = some "COLD" ∧
      (Demotion.demoteOne parse idleCutoff env t repl fs).fs.primaryObj = some b ∧
      ((Demotion.demoteOne parse idleCutoff env t repl fs).fs.efsFile = none ∨
        (env.removeOk = false ∧
          (Demotion.demoteOne parse idleCutoff env t repl fs).fs.efsFile = some b))) ∨
    ((Demotion.demoteOne parse idleCutoff env t repl fs).storageTier = t.storageTier ∧
      (Demotion.demoteOne parse idleCutoff env t repl fs).fs = fs ∧
      env.uploadOk = false) ∨
    ((Demotion.demoteOne parse idleCutoff env t repl fs).storageTier = t.storageTier ∧
      env.updateOk = false ∧ env.uploadOk = true ∧
      (Demotion.demoteOne parse idleCutoff env t repl fs).fs.primaryObj = some b)) ∧
    (env.uploadOk = false →
      (Demotion.demoteOne parse idleCutoff env t repl fs).storageTier = t.storageTier ∧
      (Demotion.demoteOne parse idleCutoff env t repl fs).fs = fs) := by
  rcases env with ⟨rf, up, rm, upd⟩
  have hgt : ¬ ts > idleCutoff := not_lt.mpr hidle
  simp only [Demotion.demoteOne, h1, ne_eq, not_true_eq_false, if_false, hv, hvt,
    Bool.not_true, Bool.false_eq_true, hp, hgt, hdb, hpb, hfs] at *
  cases up with
  | false =>
      simp
  | true =>
      cases upd with
      | false =>
          simp
      | true =>
          cases rm with
          | false => simp
          | true => simp

/-- C2 amended witness: concrete run of the amended theorem in which
upload, delete, and metadata update all succeed, yielding case (a) with
the hot-cache file removed. -/
theorem c2_amended_witness :
    (((Demotion.demoteOne (fun _ => some 0) 0 ⟨true, true, true, true⟩
        ⟨some "HOT", some (.num 1), none, some "k"⟩
        (some ⟨some "k", some "b"⟩) ⟨some 9, none⟩).storageTier = some "COLD" ∧
      (Demotion.demoteOne (fun _ => some 0) 0 ⟨true, true, true, true⟩
        ⟨some "HOT", some (.num 1), none, some "k"⟩
        (some ⟨some "k", some "b"⟩) ⟨some 9, none⟩).fs.primaryObj = some 9 ∧
      ((Demotion.demoteOne (fun _ => some 0) 0 ⟨true, true, true, true⟩
        ⟨some "HOT", some (.num 1), none, some "k"⟩
        (some ⟨some "k", some "b"⟩) ⟨some 9, none⟩).fs.efsFile = none ∨
        (true = false ∧
          (Demotion.demoteOne (fun _ => some 0) 0 ⟨true, true, true, true⟩
            ⟨some "HOT", some (.num 1), none, some "k"⟩
            (some ⟨some "k", some "b"⟩) ⟨some 9, none⟩).fs.efsFile = some 9))) ∨
    ((Demotion.demoteOne (fun _ => some 0) 0 ⟨true, true, true, true⟩
        ⟨some "HOT", some (.num 1), none, some "k"⟩
        (some ⟨some "k", some "b"⟩) ⟨some 9, none⟩).storageTier = some "HOT" ∧
      (Demotion.demoteOne (fun _ => some 0) 0 ⟨true, true, true, true⟩
        ⟨some "HOT", some (.num 1), none, some "k"⟩
        (some ⟨some "k", some "b"⟩) ⟨some 9, none⟩).fs = ⟨some 9, none⟩ ∧
      true = false) ∨
    ((Demotion.demoteOne (fun _ => some 0) 0 ⟨true, true, true, true⟩
        ⟨some "HOT", some (.num 1), none, some "k"⟩
        (some ⟨some "k", some "b"⟩) ⟨some 9, none⟩).storageTier = some "HOT" ∧
      true = false ∧ true = true ∧
      (Demotion.demoteOne (fun _ => some 0) 0 ⟨true, true, true, true⟩
        ⟨some "HOT", some (.num 1), none, some "k"⟩
        (some ⟨some "k", some "b"⟩) ⟨some 9, none⟩).fs.primaryObj = some 9)) ∧
    (true = false →
      (Demotion.demoteOne (fun _ => some 0) 0 ⟨true, true, true, true⟩
        ⟨some "HOT", some (.num 1), none, some "k"⟩
        (some ⟨some "k", some "b"⟩) ⟨some 9, none⟩).storageTier = some "HOT" ∧
      (Demotion.demoteOne (fun _ => some 0) 0 ⟨true, true, true, true⟩
        ⟨some "HOT", some (.num 1), none, some "k"⟩
        (some ⟨some "k", some "b"⟩) ⟨some 9, none⟩).fs = ⟨some 9, none⟩) := by
  exact c2_amended (fun _ => some 0) 0 0 ⟨true, true, true, true⟩
    ⟨some "HOT", some (.num 1), none, some "k"⟩
    (some ⟨some "k", some "b"⟩) ⟨some 9, none⟩ (.num 1) 9
    (by decide) rfl (by decide) rfl (by decide) (by decide) (by decide) rfl

/-- C10: in the demotion job, idleness is computed from `last_accessed_at`
with `created_at` as fallback when the former is absent (or falsy), and a
scanned tenant is skipped — all metadata and storage unchanged, never
demoted — when both timestamps are missing/falsy or when the effective
timestamp fails to parse; when a truthy `last_accessed_at` is present the
outcome does not depend on `created_at` at all. -/
theorem c10_idleness_source (parse : Demotion.TsRaw → Option Int)
    (idleCutoff : Int) (env : Demotion.DemoteEnv) (t : Demotion.TenantRec)
    (repl : Option Demotion.ReplicaRec) (fs : Demotion.FsState) :
    (Demotion.effectiveTs t = none →
      Demotion.demoteOne parse idleCutoff env t repl fs =
        ⟨t.storageTier, fs, false⟩) ∧
    (∀ v, Demotion.effectiveTs t = some v → v.truthy = false →
      Demotion.demoteOne parse idleCutoff env t repl fs =
        ⟨t.storageTier, fs, false⟩) ∧
    (∀ v, Demotion.effectiveTs t = some v → v.truthy = true → parse v = none →
      Demotion.demoteOne parse idleCutoff env t repl fs =
        ⟨t.storageTier, fs, false⟩) ∧
    (∀ v, t.lastAccessedAt = some v → v.truthy = true →
      ∀ c1 c2 : Option Demotion.TsRaw,
      Demotion.demoteOne parse idleCutoff env { t with createdAt := c1 } repl fs =
      Demotion.demoteOne parse idleCutoff env { t with createdAt := c2 } repl fs) ∧
    (t.lastAccessedAt = none →
      Demotion.demoteOne parse idleCutoff env t repl fs =
      Demotion.demoteOne parse idleCutoff env
        { t with lastAccessedAt := t.createdAt } repl fs) := by
  refine ⟨?_, ?_, ?_, ?_, ?_⟩
  · intro h
    by_cases ht : Demotion.effectiveTier t = "HOT"
    · simp [Demotion.demoteOne, ht, h]
    · simp [Demotion.demoteOne, ht]
  · intro v h hvt
    by_cases ht : Demotion.effectiveTier t = "HOT"
    · simp [Demotion.demoteOne, ht, h, hvt]
    · simp [Demotion.demoteOne, ht]
  · intro v h hvt hp
    by_cases ht : Demotion.effectiveTier t = "HOT"
    · simp [Demotion.demoteOne, ht, h, hvt, hp]
    · simp [Demotion.demoteOne, ht]
  · intro v hla hvt c1 c2
    simp [Demotion.demoteOne, Demotion.effectiveTier, Demotion.effectiveTs,
      Demotion.resolveDbKey, hla, hvt]
  · intro hla
    have hts : Demotion.effectiveTs t = t.createdAt := by
      simp [Demotion.effectiveTs, hla]
    have hts2 : Demotion.effectiveTs { t with lastAccessedAt := t.createdAt } =
        Demotion.effectiveTs t := by
      cases hc : t.createdAt with
      | none => simp [Demotion.effectiveTs, hla, hc]
      | some v =>
          by_cases hvt : v.truthy
          · simp [Demotion.effectiveTs, hla, hc, hvt]
          · simp [Demotion.effectiveTs, hla, hc, hvt]
    simp [Demotion.demoteOne, hts2, Demotion.effectiveTier, Demotion.resolveDbKey]

/-- C10 witness: a HOT tenant with neither `last_accessed_at` nor
`created_at` is skipped: metadata and storage are unchanged and the tenant
is not demoted. -/
theorem c10_witness :
    Demotion.demoteOne (fun _ => some 0) 0 ⟨true, true, true, true⟩
      ⟨some "HOT", none, none, some "k"⟩ none ⟨some 1, none⟩ =
      ⟨some "HOT", ⟨some 1, none⟩, false⟩ :=
  (c10_idleness_source (fun _ => some 0) 0 ⟨true, true, true, true⟩
    ⟨some "HOT", none, none, some "k"⟩ none ⟨some 1, none⟩).1 rfl

namespace QueryCache

/-- Python whitespace class `\s` over the characters these handlers see. -/
def isPySpace (c : Char) : Bool :=
  c = ' ' || c = '\t' || c = '\n' || c = '\r' || c = '\x0b' || c = '\x0c'

/-- Python `str.strip()` on a character list. -/
def stripChars (l : List Char) : List Char :=
  ((l.dropWhile isPySpace).reverse.dropWhile isPySpace).reverse

/-- Python `str.rstrip(";")` on a character list. -/
def rstripSemi (l : List Char) : List Char :=
  (l.reverse.dropWhile (fun c => c = ';')).reverse

/-- Collapse every maximal whitespace run to a single space, the effect of
`re.sub(r"\s+", " ", s)`; the flag records whether the current position is
inside a whitespace run. -/
def collapseWsAux : Bool → List Char → List Char
  | _, [] => []
  | inWs, c :: rest =>
      if isPySpace c then
        if inWs then collapseWsAux true rest
        else ' ' :: collapseWsAux true rest
      else c :: collapseWsAux false rest

/-- `_normalize_sql` (`src/common/lambdas/read_handler.py` lines 78-81):
strip, drop trailing semicolons, collapse whitespace runs. -/
def normalizeSql (sql : String) : String :=
  String.mk (collapseWsAux false (rstripSemi (stripChars sql.data)))

/-- `_is_cacheable_read` (`src/common/lambdas/read_handler.py` lines
70-75): falsy SQL is not cacheable; otherwise strip, drop trailing
semicolons, strip leading whitespace, lowercase, and test for a
`select`/`with` head. -/
def isCacheableRead (sql : String) : Bool :=
  if sql = "" then false
  else
    let s := (rstripSemi (stripChars sql.data)).dropWhile isPySpace
    let low := s.map Char.toLower
    "select".data.isPrefixOf low || "with".data.isPrefixOf low

/-- A cache key `octodb:tenant:<tid>:v<ver>:q:<hash>` (`_cache_key`,
`read_handler.py` lines 88-91), modelled as the triple of its three varying
components; the SHA-256 digest of the normalized SQL is modelled by the
normalized SQL itself (the digest is injective for the purpose of key
separation). -/
abbrev CacheKey := String × Nat × String

/-- The version-scoped cache lookup the read handler performs for cacheable
statements (`read_handler.py` lines 222-233): non-cacheable statements
never consult the cache. -/
def cacheLookup {α : Type} (cache : CacheKey → Option α) (tid : String)
    (ver : Nat) (sql : String) : Option α :=
  if isCacheableRead sql then cache (tid, ver, normalizeSql sql) else none

/-- Whether the read is served from the cache (`cache_hit=true` response);
a miss proceeds to storage and its response carries no hit marker, modelled
as `false`. -/
def cacheHitOnRead {α : Type} (cache : CacheKey → Option α) (tid : String)
    (ver : Nat) (sql : String) : Bool :=
  (cacheLookup cache tid ver sql).isSome

end QueryCache

namespace WritePipe

/-- Externally visible effects of a write request, in emission order
(`src/common/lambdas/write_handler.py` `lambda_handler`, lines 90-384; the
caching variant `src/caching/lambdas/write_handler.py` lines 28-316 is
identical except that it never calls `bump_cache_version`). -/
inductive WEvent where
  | touchAccess
  | rehydrate
  | downloadPrimary
  | snapshotCreated
  | uploadDb
  | uploadSnapshot
  | snsPublish
  | replicaUpdate
  | redisIncr
deriving DecidableEq, Repr

/-- Outcomes of the external calls a write request makes, in source order. -/
structure WriteEnv where
  bodyPresent : Bool
  fieldsPresent : Bool
  tenantQueryOk : Bool
  tenantFound : Bool
  apiKeyOk : Bool
  tenantIdPresent : Bool
  replicaQueryOk : Bool
  replicaFound : Bool
  replicaResolvable : Bool
  tierHot : Bool
  efsFileExists : Bool
  rehydrationConfigured : Bool
  rehydrationOk : Bool
  downloadOk : Bool
  connectOk : Bool
  sqlOk : Bool
  vacuumOk : Bool
  uploadDbOk : Bool
  uploadSnapOk : Bool
  snsConfigured : Bool
  publishOk : Bool
  replicaUpdateOk : Bool
  redisAvailable : Bool
  incrOk : Bool
deriving DecidableEq, Repr

/-- The result of a write request: HTTP status, the effects that actually
happened (an event is recorded when the call succeeded; `rehydrate` records
the invocation attempt), and whether the tenant cache version was bumped. -/
structure WriteResult where
  status : Nat
  trace : List WEvent
  bumped : Bool
deriving DecidableEq, Repr

/-- The outcome fields of the write pipeline proper (status and effect
trace), before the cache-version bump. -/
structure CoreResult where
  status : Nat
  trace : List WEvent
deriving DecidableEq, Repr

/-- The request-validation and metadata-resolution prefix of the write
handler (`src/common/lambdas/write_handler.py` lines 92-178): each check
returns its HTTP status on failure, in source order; `none` means the
request reached the pipeline. -/
def gateCheck (env : WriteEnv) : Option Nat :=
  if !env.bodyPresent then some 400
  else if !env.fieldsPresent then some 400
  else if !env.tenantQueryOk then some 500
  else if !env.tenantFound then some 404
  else if !env.apiKeyOk then some 401
  else if !env.tenantIdPresent then some 500
  else if !env.replicaQueryOk then some 500
  else if !env.replicaFound then some 404
  else if !env.replicaResolvable then some 500
  else none

/-- The external-call outcomes the pipeline proper depends on, in source
order (a projection of `WriteEnv`). -/
structure PipeEnv where
  tierHot : Bool
  efsFileExists : Bool
  rehydrationConfigured : Bool
  rehydrationOk : Bool
  downloadOk : Bool
  connectOk : Bool
  sqlOk : Bool
  vacuumOk : Bool
  uploadDbOk : Bool
  uploadSnapOk : Bool
  snsConfigured : Bool
  publishOk : Bool
  replicaUpdateOk : Bool
deriving DecidableEq, Repr

/-- Projection of the pipeline-relevant outcomes from a `WriteEnv`. -/
def pipeOf (env : WriteEnv) : PipeEnv :=
  ⟨env.tierHot, env.efsFileExists, env.rehydrationConfigured, env.rehydrationOk,
   env.downloadOk, env.connectOk, env.sqlOk, env.vacuumOk, env.uploadDbOk,
   env.uploadSnapOk, env.snsConfigured, env.publishOk, env.replicaUpdateOk⟩

/-- The `use_efs` flag after the rehydration attempt
(`src/common/lambdas/write_handler.py` lines 186-215): EFS is used iff the
tenant is HOT and the hot file exists or rehydration is configured and its
invocation succeeded. -/
def useEfs (p : PipeEnv) : Bool :=
  p.tierHot && (p.efsFileExists || (p.rehydrationConfigured && p.rehydrationOk))

/-- Whether the rehydration function is invoked (HOT tenant, hot file
missing, function configured; `write_handler.py` lines 197-211). -/
def attemptRehydrate (p : PipeEnv) : Bool :=
  p.tierHot && !p.efsFileExists && p.rehydrationConfigured

/-- Effects up to the working-copy decision: the `last_accessed_at`
telemetry write and the optional rehydration invocation. -/
def wtr1 (p : PipeEnv) : List WEvent :=
  [.touchAccess] ++ (if attemptRehydrate p then [.rehydrate] else [])

/-- Effects after the working copy is in hand: on the cold path the
download of `primary_bucket/db_path` has succeeded. -/
def wtr2 (p : PipeEnv) : List WEvent :=
  wtr1 p ++ (if useEfs p then [] else [.downloadPrimary])

/-- Effects after the `VACUUM INTO` snapshot was produced. -/
def wtr3 (p : PipeEnv) : List WEvent :=
  wtr2 p ++ [.snapshotCreated]

/-- Effects after the working database was uploaded to
`primary_bucket/db_path`. -/
def wtr4 (p : PipeEnv) : List WEvent :=
  wtr3 p ++ [.uploadDb]

/-- Effects after the snapshot was uploaded under
`replication_snapshots/`. -/
def wtr5 (p : PipeEnv) : List WEvent :=
  wtr4 p ++ [.uploadSnapshot]

/-- Effects after the SNS publish step: the event is recorded only when a
topic is configured and the publish succeeded; a publish failure is only
logged (`write_handler.py` lines 296-323). -/
def wtr6 (p : PipeEnv) : List WEvent :=
  wtr5 p ++ (if p.snsConfigured && p.publishOk then [.snsPublish] else [])

/-- The write pipeline of `lambda_handler`
(`src/common/lambdas/write_handler.py` lines 180-358), statement by
statement: `update_last_accessed` telemetry; the EFS decision (`use_efs`
iff HOT, falling back to the cold path when the hot file is missing and
rehydration is unconfigured or its invocation fails); the cold download of
`primary_bucket/db_path` (500 on failure); SQL execution and the
`VACUUM INTO` snapshot (400 on `sqlite3.Error`, 500 on a connection
error); upload of the working database then of the snapshot (500 each on
failure); the SNS publish, whose failure is only logged; and the
replica-metadata update (500 on failure, `replicaUpdate` recorded on
success just before the 200 response). -/
def writeCore (p : PipeEnv) : CoreResult :=
  if !useEfs p && !p.downloadOk then ⟨500, wtr1 p⟩
  else if !p.connectOk then ⟨500, wtr2 p⟩
  else if !p.sqlOk then ⟨400, wtr2 p⟩
  else if !p.vacuumOk then ⟨400, wtr2 p⟩
  else if !p.uploadDbOk then ⟨500, wtr3 p⟩
  else if !p.uploadSnapOk then ⟨500, wtr4 p⟩
  else if !p.replicaUpdateOk then ⟨500, wtr6 p⟩
  else ⟨200, wtr6 p ++ [.replicaUpdate]⟩

/-- The write handler `lambda_handler`
(`src/common/lambdas/write_handler.py` lines 90-384): the validation gates,
then the pipeline, then — exactly on the straight-line success path that
returns 200 — `bump_cache_version` (lines 79-87, 345), which increments the
tenant version key only when a Redis client is available and `incr`
succeeds; its absence or failure is only logged.  `hasBump=false` is the
caching variant (`src/caching/lambdas/write_handler.py`), identical except
that it has no `bump_cache_version` call. -/
def writeHandler (hasBump : Bool) (env : WriteEnv) : WriteResult :=
  match gateCheck env with
  | some st => ⟨st, [], false⟩
  | none =>
      let r := writeCore (pipeOf env)
      if r.status = 200 then
        let bumped := hasBump && env.redisAvailable && env.incrOk
        ⟨200, r.trace ++ (if bumped then [.redisIncr] else []), bumped⟩
      else ⟨r.status, r.trace, false⟩

/-- The tenant cache version after the request: `client.incr` adds one when
it runs and succeeds (`bump_cache_version`, `write_handler.py` lines
79-87), otherwise the version key is untouched. -/
def verAfter (hasBump : Bool) (env : WriteEnv) (v : Nat) : Nat :=
  if (writeHandler hasBump env).bumped then v + 1 else v

/-- The effects whose relative order claim C3 constrains. -/
def relevantEffect : WEvent → Bool
  | .snapshotCreated => true
  | .uploadDb => true
  | .uploadSnapshot => true
  | .snsPublish => true
  | .replicaUpdate => true
  | _ => false

theorem gateCheck_ne_200 (env : WriteEnv) (st : Nat)
    (h : gateCheck env = some st) : st ≠ 200 := by
  unfold gateCheck at h
  split_ifs at h <;> simp_all <;> omega

theorem filter_wtr2 (p : PipeEnv) : (wtr2 p).filter relevantEffect = [] := by
  unfold wtr2 wtr1
  cases attemptRehydrate p <;> cases useEfs p <;> simp [relevantEffect]

theorem filter_wtr6 (p : PipeEnv) :
    (wtr6 p).filter relevantEffect =
      [.snapshotCreated, .uploadDb, .uploadSnapshot] ++
        (if p.snsConfigured && p.publishOk then [.snsPublish] else []) := by
  unfold wtr6 wtr5 wtr4 wtr3
  simp only [List.filter_append, filter_wtr2]
  cases (p.snsConfigured && p.publishOk) <;> simp [relevantEffect]

theorem writeCore_success_trace (p : PipeEnv)
    (h : (writeCore p).status = 200) :
    (writeCore p).trace.filter relevantEffect =
      [.snapshotCreated, .uploadDb, .uploadSnapshot] ++
        (if p.snsConfigured && p.publishOk then [.snsPublish] else []) ++
        [.replicaUpdate] := by
  unfold writeCore at h ⊢
  split_ifs at h ⊢ <;> simp_all [List.filter_append, filter_wtr6, relevantEffect]

theorem writeCore_status_ignores_publish (p : PipeEnv) (b1 b2 : Bool) :
    (writeCore { p with publishOk := b1 }).status =
    (writeCore { p with publishOk := b2 }).status := by
  rcases p with ⟨th, ef, rc, ro, dl, co, sq, va, ud, us, sc, po, ru⟩
  unfold writeCore useEfs
  split_ifs <;> rfl

theorem writeCore_replica_update_fatal (p : PipeEnv)
    (h : (writeCore p).status = 200) :
    (writeCore { p with replicaUpdateOk := false }).status = 500 := by
  rcases p with ⟨th, ef, rc, ro, dl, co, sq, va, ud, us, sc, po, ru⟩
  unfold writeCore useEfs at h ⊢
  split_ifs at h ⊢ <;> first
    | rfl
    | exact absurd h (by decide)
    | simp_all

theorem writeHandler_gate_some (hb : Bool) (env : WriteEnv) (st : Nat)
    (hg : gateCheck env = some st) : writeHandler hb env = ⟨st, [], false⟩ := by
  unfold writeHandler
  rw [hg]

theorem writeHandler_gate_none (hb : Bool) (env : WriteEnv)
    (hg : gateCheck env = none) :
    writeHandler hb env =
      (if (writeCore (pipeOf env)).status = 200 then
        ⟨200, (writeCore (pipeOf env)).trace ++
          (if hb && env.redisAvailable && env.incrOk then [.redisIncr] else []),
          hb && env.redisAvailable && env.incrOk⟩
      else ⟨(writeCore (pipeOf env)).status, (writeCore (pipeOf env)).trace,
        false⟩) := by
  unfold writeHandler
  rw [hg]

theorem writeHandler_status_200_shape (hasBump : Bool) (env : WriteEnv)
    (h : (writeHandler hasBump env).status = 200) :
    (writeHandler hasBump env).trace.filter relevantEffect =
      [.snapshotCreated, .uploadDb, .uploadSnapshot] ++
        (if env.snsConfigured && env.publishOk then [.snsPublish] else []) ++
        [.replicaUpdate] ∧
    (writeHandler hasBump env).bumped =
      (hasBump && env.redisAvailable && env.incrOk) := by
  cases hg : gateCheck env with
  | some st =>
      rw [writeHandler_gate_some hasBump env st hg] at h
      exact absurd (by simpa using h) (gateCheck_ne_200 env st hg)
  | none =>
      rw [writeHandler_gate_none hasBump env hg] at h ⊢
      by_cases hr : (writeCore (pipeOf env)).status = 200
      · rw [if_pos hr] at h ⊢
        constructor
        · show ((writeCore (pipeOf env)).trace ++
            (if hasBump && env.redisAvailable && env.incrOk then
              [WEvent.redisIncr] else [])).filter relevantEffect = _
          rw [List.filter_append, writeCore_success_trace (pipeOf env) hr]
          cases hb : (hasBump && env.redisAvailable && env.incrOk) <;>
            simp [relevantEffect, pipeOf]
        · rfl
      · rw [if_neg hr] at h
        exact absurd h hr

end WritePipe

/-- C3: within every successful write request the externally visible
effects occur in strict order — the snapshot is produced (`VACUUM INTO`),
then the working database is uploaded to `primary_bucket/db_path`, then the
snapshot is uploaded under `replication_snapshots/`, and the replication
event is published (when the topic is configured and the publish succeeds)
only after the snapshot upload, with the replica-metadata update last;
a publish failure never changes the request's status; and a failing
replica-metadata update turns an otherwise successful request into a 500. -/
theorem c3_write_effect_ordering (hasBump : Bool) (env : WritePipe.WriteEnv) :
    ((WritePipe.writeHandler hasBump env).status = 200 →
      (WritePipe.writeHandler hasBump env).trace.filter WritePipe.relevantEffect =
        [.snapshotCreated, .uploadDb, .uploadSnapshot] ++
          (if env.snsConfigured && env.publishOk then [.snsPublish] else []) ++
          [.replicaUpdate]) ∧
    ((WritePipe.writeHandler hasBump { env with publishOk := true }).status = 200 →
      (WritePipe.writeHandler hasBump { env with publishOk := false }).status = 200) ∧
    ((WritePipe.writeHandler hasBump env).status = 200 →
      (WritePipe.writeHandler hasBump
        { env with replicaUpdateOk := false }).status = 500) := by
  refine ⟨?_, ?_, ?_⟩
  · intro h
    exact (WritePipe.writeHandler_status_200_shape hasBump env h).1
  · intro h2
    have hgp : ∀ b : Bool,
        WritePipe.gateCheck { env with publishOk := b } =
          WritePipe.gateCheck env := fun b => rfl
    have hpp : ∀ b : Bool,
        WritePipe.pipeOf { env with publishOk := b } =
          { WritePipe.pipeOf env with publishOk := b } := fun b => rfl
    cases hg : WritePipe.gateCheck env with
    | some st =>
        rw [WritePipe.writeHandler_gate_some hasBump _ st
          (by rw [hgp]; exact hg)] at h2
        exact absurd (by simpa using h2) (WritePipe.gateCheck_ne_200 env st hg)
    | none =>
        rw [WritePipe.writeHandler_gate_none hasBump _
          (by rw [hgp]; exact hg)] at h2
        rw [WritePipe.writeHandler_gate_none hasBump _
          (by rw [hgp]; exact hg)]
        have hst : (WritePipe.writeCore
            (WritePipe.pipeOf { env with publishOk := false })).status =
            (WritePipe.writeCore
              (WritePipe.pipeOf { env with publishOk := true })).status := by
          rw [hpp true, hpp false]
          exact WritePipe.writeCore_status_ignores_publish
            (WritePipe.pipeOf env) false true
        by_cases hr : (WritePipe.writeCore
            (WritePipe.pipeOf { env with publishOk := true })).status = 200
        · rw [if_pos (by rw [hst]; exact hr)]
        · rw [if_neg hr] at h2
          exact absurd h2 hr
  · intro h3
    cases hg : WritePipe.gateCheck env with
    | some st =>
        rw [WritePipe.writeHandler_gate_some hasBump env st hg] at h3
        exact absurd (by simpa using h3) (WritePipe.gateCheck_ne_200 env st hg)
    | none =>
        have hgr : WritePipe.gateCheck { env with replicaUpdateOk := false } =
            WritePipe.gateCheck env := rfl
        rw [WritePipe.writeHandler_gate_none hasBump env hg] at h3
        rw [WritePipe.writeHandler_gate_none hasBump _ (by rw [hgr]; exact hg)]
        by_cases hr : (WritePipe.writeCore (WritePipe.pipeOf env)).status = 200
        · have hpr : WritePipe.pipeOf { env with replicaUpdateOk := false } =
              { WritePipe.pipeOf env with replicaUpdateOk := false } := rfl
          have h5 : (WritePipe.writeCore
              (WritePipe.pipeOf { env with replicaUpdateOk := false })).status =
              500 := by
            rw [hpr]
            exact WritePipe.writeCore_replica_update_fatal
              (WritePipe.pipeOf env) hr
          rw [if_neg (by rw [h5]; exact (by decide : (500 : Nat) ≠ 200))]
          exact h5
        · rw [if_neg hr] at h3
          exact absurd h3 hr

/-- C3 witness: a fully successful write with the topic configured shows
the ordered trace, and the same request with a failing replica-metadata
update returns 500. -/
theorem c3_witness :
    (WritePipe.writeHandler true
        ⟨true, true, true, true, true, true, true, true, true, true, true,
         true, true, true, true, true, true, true, true, true, true, true,
         true, true⟩).trace.filter WritePipe.relevantEffect =
      [.snapshotCreated, .uploadDb, .uploadSnapshot] ++
        (if true && true then [WritePipe.WEvent.snsPublish] else []) ++
        [.replicaUpdate] ∧
    (WritePipe.writeHandler true
        { (⟨true, true, true, true, true, true, true, true, true, true, true,
           true, true, true, true, true, true, true, true, true, true, true,
           true, true⟩ : WritePipe.WriteEnv) with
          replicaUpdateOk := false }).status = 500 :=
  ⟨(c3_write_effect_ordering true
      ⟨true, true, true, true, true, true, true, true, true, true, true,
       true, true, true, true, true, true, true, true, true, true, true,
       true, true⟩).1 rfl,
   (c3_write_effect_ordering true
      ⟨true, true, true, true, true, true, true, true, true, true, true,
       true, true, true, true, true, true, true, true, true, true, true,
       true, true⟩).2.2 rfl⟩

/-- C4 counterexample: a write request that succeeds (200) while the Redis
client is unavailable leaves the tenant cache version unchanged —
`bump_cache_version` returns without incrementing and only logs — so a
successful write does not always strictly increase the version; the
caching write-handler variant never bumps at all, even with Redis
reachable. -/
theorem c4_counterexample :
    (WritePipe.writeHandler true
        ⟨true, true, true, true, true, true, true, true, true, true, true,
         true, true, true, true, true, true, true, true, true, true, true,
         false, true⟩).status = 200 ∧
    WritePipe.verAfter true
        ⟨true, true, true, true, true, true, true, true, true, true, true,
         true, true, true, true, true, true, true, true, true, true, true,
         false, true⟩ 0 = 0 ∧
    (WritePipe.writeHandler false
        ⟨true, true, true, true, true, true, true, true, true, true, true,
         true, true, true, true, true, true, true, true, true, true, true,
         true, true⟩).status = 200 ∧
    WritePipe.verAfter false
        ⟨true, true, true, true, true, true, true, true, true, true, true,
         true, true, true, true, true, true, true, true, true, true, true,
         true, true⟩ 0 = 0 :=
  ⟨rfl, rfl, rfl, rfl⟩

/-- C4 (amended): when a write succeeds and the Redis client is available
and `incr` succeeds, the tenant cache version is incremented by exactly
one; any cache whose entries all live under versions at most the pre-write
version then cannot serve the next read of any statement — the
version-scoped key of the new generation has no entry, so the read is a
miss (`cache_hit` is not set to true).  When the bump is skipped or fails,
the write still returns 200 and the version is unchanged (the
counterexample exhibits this). -/
theorem c4_amended {α : Type} (env : WritePipe.WriteEnv) (v : Nat)
    (cache : QueryCache.CacheKey → Option α) (tid sql : String)
    (h : (WritePipe.writeHandler true env).status = 200)
    (hra : env.redisAvailable = true) (hio : env.incrOk = true)
    (hcache : ∀ hsh, cache (tid, v + 1, hsh) = none) :
    WritePipe.verAfter true env v = v + 1 ∧
    QueryCache.cacheLookup cache tid (WritePipe.verAfter true env v) sql = none ∧
    QueryCache.cacheHitOnRead cache tid (WritePipe.verAfter true env v) sql =
      false := by
  have hb : (WritePipe.writeHandler true env).bumped = true := by
    rw [(WritePipe.writeHandler_status_200_shape true env h).2, hra, hio]
    rfl
  have hv : WritePipe.verAfter true env v = v + 1 := by
    unfold WritePipe.verAfter
    rw [hb]
    simp
  have hl : QueryCache.cacheLookup cache tid (WritePipe.verAfter true env v)
      sql = none := by
    rw [hv]
    unfold QueryCache.cacheLookup
    by_cases hc : QueryCache.isCacheableRead sql
    · rw [if_pos hc]
      exact hcache _
    · rw [if_neg hc]
  refine ⟨hv, hl, ?_⟩
  unfold QueryCache.cacheHitOnRead
  rw [hl]
  rfl

/-- C4 amended witness: concrete bump on an all-success environment with an
empty cache — version goes from 0 to 1 and the next read misses. -/
theorem c4_amended_witness :
    WritePipe.verAfter true
        ⟨true, true, true, true, true, true, true, true, true, true, true,
         true, true, true, true, true, true, true, true, true, true, true,
         true, true⟩ 0 = 1 ∧
    QueryCache.cacheLookup (fun _ => (none : Option Nat)) "t1"
        (WritePipe.verAfter true
          ⟨true, true, true, true, true, true, true, true, true, true, true,
           true, true, true, true, true, true, true, true, true, true, true,
           true, true⟩ 0) "SELECT 1" = none ∧
    QueryCache.cacheHitOnRead (fun _ => (none : Option Nat)) "t1"
        (WritePipe.verAfter true
          ⟨true, true, true, true, true, true, true, true, true, true, true,
           true, true, true, true, true, true, true, true, true, true, true,
           true, true⟩ 0) "SELECT 1" = false :=
  c4_amended
    ⟨true, true, true, true, true, true, true, true, true, true, true,
     true, true, true, true, true, true, true, true, true, true, true,
     true, true⟩ 0 (fun _ => (none : Option Nat)) "t1" "SELECT 1"
    rfl rfl rfl (fun _ => rfl)

namespace ReadPipe

/-- Externally visible effects of a read request, in emission order:
the `last_accessed_at` telemetry write, the rehydration invocation, the
creation of the scoped temporary file for the cold path, the successful
download from the read-replica bucket, and the deletion of the temporary
file. -/
inductive REvent where
  | touchAccess
  | rehydrate
  | tmpCreate
  | downloadReplica
  | tmpDelete
deriving DecidableEq, Repr

/-- The result of a read request: HTTP status, the `db_source` and
`storage_tier` fields of a success body (absent on errors and on cache
hits, whose payload is the stored body), whether the response was served
from the query cache, and the effect trace. -/
structure ReadResult where
  status : Nat
  dbSource : Option String
  storageTier : Option String
  cacheHit : Bool
  trace : List REvent
deriving DecidableEq, Repr

/-- `(tenant_item.get('storage_tier') or 'COLD').upper()` as both read
handlers compute it (`src/caching/lambdas/read_handler.py` line 104,
`src/common/lambdas/read_handler.py` line 204). -/
def tierOf (raw : Option String) : String :=
  if Demotion.strTruthy raw then Demotion.upperAscii (raw.getD "") else "COLD"

/-- Request-validation and metadata outcomes shared by both read handlers,
in source order; `replicaResolvable` is the presence of
`read_only_bucket` and `db_path`. -/
structure ReadGates where
  bodyPresent : Bool
  fieldsPresent : Bool
  tenantQueryOk : Bool
  tenantFound : Bool
  apiKeyOk : Bool
  tenantIdPresent : Bool
  replicaQueryOk : Bool
  replicaFound : Bool
  replicaResolvable : Bool
deriving DecidableEq, Repr

/-- The status returned by the first failing validation step, `none` when
the request reaches the query path (`caching/read_handler.py` lines 31-101,
`common/read_handler.py` lines 137-201). -/
def readGateCheck (g : ReadGates) : Option Nat :=
  if !g.bodyPresent then some 400
  else if !g.fieldsPresent then some 400
  else if !g.tenantQueryOk then some 500
  else if !g.tenantFound then some 404
  else if !g.apiKeyOk then some 401
  else if !g.tenantIdPresent then some 500
  else if !g.replicaQueryOk then some 500
  else if !g.replicaFound then some 404
  else if !g.replicaResolvable then some 500
  else none

/-- Per-request external outcomes of the caching read handler
(`src/caching/lambdas/read_handler.py`). -/
structure CacheReadEnv where
  gates : ReadGates
  storageTierRaw : Option String
  efsFileExists : Bool
  rehydrationConfigured : Bool
  rehydrationOk : Bool
  efsExistsAfter : Bool
  downloadOk : Bool
  connectOk : Bool
  sqlOk : Bool
deriving DecidableEq, Repr

/-- The caching read handler `lambda_handler`
(`src/caching/lambdas/read_handler.py` lines 22-228), statement by
statement after the validation gates: `update_last_accessed` telemetry;
`use_efs` is true only for a HOT tenant (`EFS_MOUNT_DIR` has a non-empty
default and `db_key` falls back to the always-present `db_path`, so only
the tier decides); for a HOT tenant with a missing hot file the
rehydration handler is invoked against the read replica when configured
(an invocation failure clears `use_efs`); the hot path is taken only when
the file exists at the re-check (line 140) and serves with
`db_source "EFS"` (500 on a connection error, 400 on a SQL error);
otherwise the cold path creates a temporary file, downloads
`read_only_bucket/db_path` — a download failure returns 500 from inside
the download `try`, before the `finally` that unlinks, so no `tmpDelete`
happens on that path — and then executes the query (400 on SQL error, 200
with `db_source "S3_READ_REPLICA"` on success), unlinking the temporary
file in the `finally` of the connection `try`. -/
def cachingReadHandler (env : CacheReadEnv) : ReadResult :=
  match readGateCheck env.gates with
  | some st => ⟨st, none, none, false, []⟩
  | none =>
      let tier := tierOf env.storageTierRaw
      let useEfs0 := tier = "HOT"
      let attempted := useEfs0 && !env.efsFileExists && env.rehydrationConfigured
      let useEfs1 :=
        if useEfs0 && !env.efsFileExists then
          (if env.rehydrationConfigured then env.rehydrationOk else false)
        else useEfs0
      let tr1 : List REvent :=
        [.touchAccess] ++ (if attempted then [.rehydrate] else [])
      if useEfs1 && (env.efsFileExists || env.efsExistsAfter) then
        if !env.connectOk then ⟨500, none, none, false, tr1⟩
        else if !env.sqlOk then ⟨400, none, none, false, tr1⟩
        else ⟨200, some "EFS", some tier, false, tr1⟩
      else
        if !env.downloadOk then ⟨500, none, none, false, tr1 ++ [.tmpCreate]⟩
        else if !env.connectOk then
          ⟨500, none, none, false,
            tr1 ++ [.tmpCreate, .downloadReplica, .tmpDelete]⟩
        else if !env.sqlOk then
          ⟨400, none, none, false,
            tr1 ++ [.tmpCreate, .downloadReplica, .tmpDelete]⟩
        else
          ⟨200, some "S3_READ_REPLICA", some tier, false,
            tr1 ++ [.tmpCreate, .downloadReplica, .tmpDelete]⟩

/-- Per-request external outcomes of the common read handler
(`src/common/lambdas/read_handler.py`): additionally the Redis
read-through cache (`redisAvailable` is a reachable configured client,
`sqlCacheable` the value of `_is_cacheable_read(sql_query)`,
`cacheHasEntry` whether the version-scoped key holds a payload) and
`primaryBucketPresent`, required for the rehydration invocation. -/
structure CommonReadEnv where
  gates : ReadGates
  storageTierRaw : Option String
  redisAvailable : Bool
  sqlCacheable : Bool
  cacheHasEntry : Bool
  primaryBucketPresent : Bool
  efsFileExists : Bool
  rehydrationConfigured : Bool
  efsExistsAfter : Bool
  downloadOk : Bool
  connectOk : Bool
  sqlOk : Bool
deriving DecidableEq, Repr

/-- The common read handler `lambda_handler`
(`src/common/lambdas/read_handler.py` lines 125-379), statement by
statement after the validation gates: `last_accessed_at` telemetry; the
Redis read-through lookup for cacheable statements, returning the stored
payload with `cache_hit=true` on a hit; then `use_efs` is set regardless
of tier (line 240: only `EFS_MOUNT_DIR` and `db_key`, both always truthy
here), a missing hot file triggers a rehydration invocation whenever the
function name and `primary_bucket` are present — for COLD tenants too —
with a failed invocation only logged; the hot path is taken whenever the
file exists at the re-check (line 264) and serves with `db_source "EFS"`;
otherwise the cold path creates a temporary file, downloads
`read_only_bucket/db_path` — a download failure returns 500 before the
`finally` that unlinks, so no `tmpDelete` happens on that path — then
executes (400 on SQL error, 200 with `db_source "S3_READ_REPLICA"`),
unlinking the temporary file in the `finally` attached to the connection
`try`. -/
def commonReadHandler (env : CommonReadEnv) : ReadResult :=
  match readGateCheck env.gates with
  | some st => ⟨st, none, none, false, []⟩
  | none =>
      let tier := tierOf env.storageTierRaw
      if env.redisAvailable && env.sqlCacheable && env.cacheHasEntry then
        ⟨200, none, none, true, [.touchAccess]⟩
      else
        let attempted := !env.efsFileExists &&
          (env.rehydrationConfigured && env.primaryBucketPresent)
        let tr1 : List REvent :=
          [.touchAccess] ++ (if attempted then [.rehydrate] else [])
        if env.efsFileExists || env.efsExistsAfter then
          if !env.connectOk then ⟨500, none, none, false, tr1⟩
          else if !env.sqlOk then ⟨400, none, none, false, tr1⟩
          else ⟨200, some "EFS", some tier, false, tr1⟩
        else
          if !env.downloadOk then ⟨500, none, none, false, tr1 ++ [.tmpCreate]⟩
          else if !env.connectOk then
            ⟨500, none, none, false,
              tr1 ++ [.tmpCreate, .downloadReplica, .tmpDelete]⟩
          else if !env.sqlOk then
            ⟨400, none, none, false,
              tr1 ++ [.tmpCreate, .downloadReplica, .tmpDelete]⟩
          else
            ⟨200, some "S3_READ_REPLICA", some tier, false,
              tr1 ++ [.tmpCreate, .downloadReplica, .tmpDelete]⟩

end ReadPipe

namespace ReadPipe

theorem caching_no_rehydrate_when_not_hot (env : CacheReadEnv)
    (h : tierOf env.storageTierRaw ≠ "HOT") :
    REvent.rehydrate ∉ (cachingReadHandler env).trace := by
  unfold cachingReadHandler
  cases hg : readGateCheck env.gates with
  | some st => simp
  | none =>
      have hd : decide (tierOf env.storageTierRaw = "HOT") = false := by
        simp [h]
      simp only [hd]
      split_ifs <;> simp_all

theorem caching_cold_serves_replica (env : CacheReadEnv)
    (hg : readGateCheck env.gates = none)
    (ht : tierOf env.storageTierRaw = "COLD")
    (hdl : env.downloadOk = true) (hco : env.connectOk = true)
    (hsq : env.sqlOk = true) :
    cachingReadHandler env =
      ⟨200, some "S3_READ_REPLICA", some "COLD", false,
        [.touchAccess, .tmpCreate, .downloadReplica, .tmpDelete]⟩ := by
  unfold cachingReadHandler
  rw [hg]
  have hd : decide (tierOf env.storageTierRaw = "HOT") = false := by
    simp [ht]
  simp [hd, ht, hdl, hco, hsq]

theorem common_cold_miss_serves_replica (env : CommonReadEnv)
    (hg : readGateCheck env.gates = none)
    (ht : tierOf env.storageTierRaw = "COLD")
    (hrc : (env.redisAvailable && env.sqlCacheable && env.cacheHasEntry) = false)
    (hef : env.efsFileExists = false) (hea : env.efsExistsAfter = false)
    (hdl : env.downloadOk = true) (hco : env.connectOk = true)
    (hsq : env.sqlOk = true) :
    (commonReadHandler env).status = 200 ∧
    (commonReadHandler env).dbSource = some "S3_READ_REPLICA" ∧
    (commonReadHandler env).storageTier = some "COLD" ∧
    REvent.tmpDelete ∈ (commonReadHandler env).trace := by
  unfold commonReadHandler
  rw [hg]
  simp [hrc, hef, hea, hdl, hco, hsq, ht]

end ReadPipe

/-- C7 counterexample: in the common read handler a COLD tenant whose
hot-cache file is absent does get a rehydration attempt (the tier is never
checked on the read path), and when the invocation materialises the file
the query is served from the hot cache: the response is 200 with
`db_source "EFS"` and `storage_tier "COLD"`, not `S3_READ_REPLICA`, and the
trace records the rehydration. -/
theorem c7_counterexample :
    ReadPipe.commonReadHandler
        ⟨⟨true, true, true, true, true, true, true, true, true⟩,
          some "COLD", false, false, false, true, false, true, true, true,
          true, true⟩ =
      ⟨200, some "EFS", some "COLD", false, [.touchAccess, .rehydrate]⟩ ∧
    ReadPipe.REvent.rehydrate ∈
      (ReadPipe.commonReadHandler
        ⟨⟨true, true, true, true, true, true, true, true, true⟩,
          some "COLD", false, false, false, true, false, true, true, true,
          true, true⟩).trace ∧
    ¬ ((ReadPipe.commonReadHandler
        ⟨⟨true, true, true, true, true, true, true, true, true⟩,
          some "COLD", false, false, false, true, false, true, true, true,
          true, true⟩).dbSource = some "S3_READ_REPLICA") :=
  ⟨rfl, by decide, by decide⟩

/-- C7 (amended): the caching read handler behaves as the claim states — a
tenant whose computed tier is not HOT never triggers rehydration, and a
COLD tenant with working download and query is served from the read
replica with 200, `db_source "S3_READ_REPLICA"`, `storage_tier "COLD"`,
and the scoped temporary file deleted; the common read handler attempts
rehydration regardless of tier and serves a COLD tenant from the hot cache
with `db_source "EFS"` when the file exists after the attempt, falling
back to the read replica (same 200 response shape) only when the hot-cache
file is still absent. -/
theorem c7_amended (cenv : ReadPipe.CacheReadEnv)
    (menv : ReadPipe.CommonReadEnv)
    (hct : ReadPipe.tierOf cenv.storageTierRaw = "COLD")
    (hcg : ReadPipe.readGateCheck cenv.gates = none)
    (hcd : cenv.downloadOk = true) (hcc : cenv.connectOk = true)
    (hcs : cenv.sqlOk = true)
    (hmg : ReadPipe.readGateCheck menv.gates = none)
    (hmt : ReadPipe.tierOf menv.storageTierRaw = "COLD")
    (hmr : (menv.redisAvailable && menv.sqlCacheable &&
      menv.cacheHasEntry) = false)
    (hme : menv.efsFileExists = false) (hma : menv.efsExistsAfter = false)
    (hmd : menv.downloadOk = true) (hmc : menv.connectOk = true)
    (hms : menv.sqlOk = true) :
    ReadPipe.REvent.rehydrate ∉ (ReadPipe.cachingReadHandler cenv).trace ∧
    ReadPipe.cachingReadHandler cenv =
      ⟨200, some "S3_READ_REPLICA", some "COLD", false,
        [.touchAccess, .tmpCreate, .downloadReplica, .tmpDelete]⟩ ∧
    (ReadPipe.commonReadHandler menv).status = 200 ∧
    (ReadPipe.commonReadHandler menv).dbSource = some "S3_READ_REPLICA" ∧
    (ReadPipe.commonReadHandler menv).storageTier = some "COLD" := by
  refine ⟨?_, ?_, ?_, ?_, ?_⟩
  · exact ReadPipe.caching_no_rehydrate_when_not_hot cenv (by rw [hct]; decide)
  · exact ReadPipe.caching_cold_serves_replica cenv hcg hct hcd hcc hcs
  · exact (ReadPipe.common_cold_miss_serves_replica menv hmg hmt hmr hme hma
      hmd hmc hms).1
  · exact (ReadPipe.common_cold_miss_serves_replica menv hmg hmt hmr hme hma
      hmd hmc hms).2.1
  · exact (ReadPipe.common_cold_miss_serves_replica menv hmg hmt hmr hme hma
      hmd hmc hms).2.2.1

/-- C7 amended witness: a concrete COLD tenant served by both handlers
from the read replica. -/
theorem c7_amended_witness :
    ReadPipe.REvent.rehydrate ∉
      (ReadPipe.cachingReadHandler
        ⟨⟨true, true, true, true, true, true, true, true, true⟩,
          some "COLD", false, false, false, false, true, true, true⟩).trace ∧
    ReadPipe.cachingReadHandler
        ⟨⟨true, true, true, true, true, true, true, true, true⟩,
          some "COLD", false, false, false, false, true, true, true⟩ =
      ⟨200, some "S3_READ_REPLICA", some "COLD", false,
        [.touchAccess, .tmpCreate, .downloadReplica, .tmpDelete]⟩ ∧
    (ReadPipe.commonReadHandler
        ⟨⟨true, true, true, true, true, true, true, true, true⟩,
          some "COLD", false, false, false, true, false, false, false, true,
          true, true⟩).status = 200 ∧
    (ReadPipe.commonReadHandler
        ⟨⟨true, true, true, true, true, true, true, true, true⟩,
          some "COLD", false, false, false, true, false, false, false, true,
          true, true⟩).dbSource = some "S3_READ_REPLICA" ∧
    (ReadPipe.commonReadHandler
        ⟨⟨true, true, true, true, true, true, true, true, true⟩,
          some "COLD", false, false, false, true, false, false, false, true,
          true, true⟩).storageTier = some "COLD" :=
  c7_amended
    ⟨⟨true, true, true, true, true, true, true, true, true⟩,
      some "COLD", false, false, false, false, true, true, true⟩
    ⟨⟨true, true, true, true, true, true, true, true, true⟩,
      some "COLD", false, false, false, true, false, false, false, true,
      true, true⟩
    (by decide) rfl rfl rfl rfl rfl (by decide) rfl rfl rfl rfl rfl rfl

/-- C8: on the cold read path the scoped temporary file is NOT deleted on
every exit path: when the S3 download fails, the handler returns 500 from
inside the download `try`, which the unlink `finally` (attached to the
later connection `try`) never guards, so the temporary file leaks; the
SQL-failure and success exits do delete it.  The failing input is a valid
read request for a tenant served from the read replica whose
`s3.download_file` raises. -/
theorem c8_temp_file_leak_on_download_failure :
    ReadPipe.commonReadHandler
        ⟨⟨true, true, true, true, true, true, true, true, true⟩,
          some "COLD", false, false, false, true, false, false, false, false,
          true, true⟩ =
      ⟨500, none, none, false, [.touchAccess, .tmpCreate]⟩ ∧
    ReadPipe.REvent.tmpCreate ∈
      (ReadPipe.commonReadHandler
        ⟨⟨true, true, true, true, true, true, true, true, true⟩,
          some "COLD", false, false, false, true, false, false, false, false,
          true, true⟩).trace ∧
    ReadPipe.REvent.tmpDelete ∉
      (ReadPipe.commonReadHandler
        ⟨⟨true, true, true, true, true, true, true, true, true⟩,
          some "COLD", false, false, false, true, false, false, false, false,
          true, true⟩).trace ∧
    ReadPipe.REvent.tmpDelete ∈
      (ReadPipe.commonReadHandler
        ⟨⟨true, true, true, true, true, true, true, true, true⟩,
          some "COLD", false, false, false, true, false, false, false, true,
          true, false⟩).trace ∧
    ReadPipe.REvent.tmpDelete ∈
      (ReadPipe.commonReadHandler
        ⟨⟨true, true, true, true, true, true, true, true, true⟩,
          some "COLD", false, false, false, true, false, false, false, true,
          true, true⟩).trace :=
  ⟨rfl, by decide, by decide, by decide, by decide⟩

namespace Replication

/-- Externally visible effects of `r2_replica_handler.lambda_handler`
(src/replication/lambdas/r2_replica_handler.py) while processing one SQS
record: the snapshot download from the primary bucket (line 67), the upload
to the standby bucket (line 77), and the unlink of the temporary file in
the upload `finally` (lines 85-92). -/
inductive RepEvent
  | download
  | uploadStandby
  | tmpDelete
deriving DecidableEq, Repr

/-- One SQS record as the handler sees it: either its body fails
`json.loads` (line 23 or 28 raises `json.JSONDecodeError`), or it parses
into a message whose processing outcome is determined by whether the four
required fields are present (line 55), the S3 download succeeds (line 67),
and the standby upload succeeds (line 77). -/
inductive RepRecord
  | badJson
  | msg (fieldsOk downloadOk uploadOk : Bool)
deriving DecidableEq, Repr

/-- Processing of one record, lines 21-108: the pair is (events emitted,
whether the exception escapes the per-record `try`).  `json.JSONDecodeError`
is caught at line 100 and only printed, so a `badJson` record emits nothing
and does NOT raise; every other failure reaches the generic `except` at
line 104 which re-raises.  A missing-field `ValueError` (line 57) raises
before the download; a download failure raises with no completed effect
(the upload `finally` is not yet entered); an upload failure raises after
the download, with the temporary file deleted by the `finally`; on success
all three effects occur and nothing is raised. -/
def processRecord : RepRecord → List RepEvent × Bool
  | .badJson => ([], false)
  | .msg fieldsOk downloadOk uploadOk =>
      if !fieldsOk then ([], true)
      else if !downloadOk then ([], true)
      else if !uploadOk then ([.download, .tmpDelete], true)
      else ([.download, .uploadStandby, .tmpDelete], false)

/-- The record loop of `lambda_handler` (line 20): records are processed
in order; the first record whose exception escapes aborts the whole
invocation (the raise propagates out of the `for`), so later records are
not processed; if no record raises, the handler returns 200 and the batch
is acknowledged. -/
def replicaHandler : List RepRecord → List RepEvent × Bool
  | [] => ([], false)
  | r :: rest =>
      if (processRecord r).2 then ((processRecord r).1, true)
      else ((processRecord r).1 ++ (replicaHandler rest).1,
        (replicaHandler rest).2)

theorem replicaHandler_no_raise (rs : List RepRecord)
    (hh : (replicaHandler rs).2 = false) :
    ∀ x ∈ rs, (processRecord x).2 = false := by
  induction rs with
  | nil => intro x hx; cases hx
  | cons r rest ih =>
      intro x hx
      unfold replicaHandler at hh
      by_cases hp : (processRecord r).2 = true
      · rw [if_pos hp] at hh; simp at hh
      · have hf : (processRecord r).2 = false := by
          cases h2 : (processRecord r).2
          · rfl
          · exact absurd h2 hp
        rw [if_neg hp] at hh
        simp only [] at hh
        rcases List.mem_cons.mp hx with rfl | hx'
        · exact hf
        · exact ih hh x hx'

end Replication

/-- C6 counterexample: a record whose body fails JSON parsing does NOT
raise out of the handler — `json.JSONDecodeError` is caught and only
logged — so an invocation consisting of that record completes without
raising and the batch is acknowledged even though no snapshot bytes were
uploaded to the standby bucket. -/
theorem c6_counterexample :
    Replication.replicaHandler [.badJson] = ([], false) ∧
    Replication.RepEvent.uploadStandby ∉
      (Replication.replicaHandler [.badJson]).1 :=
  ⟨rfl, by decide⟩

/-- C6 (amended): for every PARSEABLE replication message, any processing
failure (missing fields, download failure, upload failure) raises out of
the handler so the bus redelivers, and a parseable message acknowledged
without raising has had its snapshot uploaded to the standby bucket; a
batch that the handler finishes without raising contains no record whose
processing raised.  The exception is a message body that fails JSON
parsing: it is swallowed (logged only) and acknowledged without any
upload. -/
theorem c6_amended (f d u : Bool) (r : Replication.RepRecord)
    (rs : List Replication.RepRecord)
    (hfail : (f && d && u) = false)
    (hok : (Replication.processRecord r).2 = false)
    (hpar : r ≠ .badJson)
    (hh : (Replication.replicaHandler rs).2 = false) :
    (Replication.processRecord (.msg f d u)).2 = true ∧
    Replication.RepEvent.uploadStandby ∈ (Replication.processRecord r).1 ∧
    (∀ x ∈ rs, (Replication.processRecord x).2 = false) ∧
    (Replication.processRecord .badJson).2 = false := by
  refine ⟨?_, ?_, Replication.replicaHandler_no_raise rs hh, rfl⟩
  · cases f <;> cases d <;> cases u <;>
      simp_all [Replication.processRecord]
  · cases r with
    | badJson => exact absurd rfl hpar
    | msg a b c =>
        cases a <;> cases b <;> cases c <;>
          simp_all [Replication.processRecord]

/-- C6 amended witness: a concrete upload failure raises; a concrete
fully successful record uploads; a concrete non-raising batch has no
raising record; bad JSON never raises. -/
theorem c6_amended_witness :
    (Replication.processRecord (.msg true true false)).2 = true ∧
    Replication.RepEvent.uploadStandby ∈
      (Replication.processRecord (.msg true true true)).1 ∧
    (∀ x ∈ ([.msg true true true, .badJson] :
        List Replication.RepRecord),
      (Replication.processRecord x).2 = false) ∧
    (Replication.processRecord .badJson).2 = false :=
  c6_amended true true false (.msg true true true)
    [.msg true true true, .badJson] rfl rfl (by decide) rfl
